import Mathlib

/-!
A shallow embedding of the subscription-lifecycle core of the firestore-mobx
library (src/src/document.ts and src/src/collection.ts, first revision in each
file, which is the revision the claim line numbers refer to).

Modelling conventions:
* Firestore references are structural: a document reference is a parent
  collection path plus a document id, and `path` is their concatenation,
  exactly the string the source compares with `===`.
* Promises are modelled as a growing pool `promises : List (Option v)`;
  an entry `none` is a pending promise, `some v` a resolved one.  Resolving an
  already-resolved promise is a no-op on its value, as in JS.
* Every operation returns the new state, the list of externally visible
  events it emitted (store fetches/subscriptions, callback invocations,
  promise resolutions, writes to `isLoading`), and an `Except Err Unit`
  (or a promise index for `ready`).  `Err.assertFail` models the library's
  internal `assert` throwing; `Err.thrown` models `handleError` re-throwing
  when no error callback is registered.  State mutations performed before a
  throw persist, as in JS.
* mobx `onBecomeObserved` / `onBecomeUnobserved` hooks are the `resume` /
  `suspend` operations; mobx guarantees they are balanced, which appears as
  the precondition `1 ≤ observedCount` on `suspend` steps in the
  reachability relation.
* Asynchronous continuations (one-shot fetch resolution / rejection, live
  listener snapshots and errors) are separate transitions.  A fetch can only
  resolve if it is actually in flight (`pendingFetches`), and a listener
  callback is only applied while its subscription handle is the current one
  (`onSnapshotUnsubscribeFn`), which is the store client's contract that
  unsubscribed listeners never fire.
-/

/-- A Firestore collection reference, identified by its path
(`CollectionReference` in the source). -/
structure CollRef where
  path : String
deriving DecidableEq, Repr

/-- A Firestore document reference: parent collection path plus document id
(`DocumentReference` in the source). -/
structure DocRef where
  collPath : String
  docId : String
deriving DecidableEq, Repr

/-- `DocumentReference.path`. -/
def DocRef.path (r : DocRef) : String := r.collPath ++ "/" ++ r.docId

/-- `DocumentReference.parent`. -/
def DocRef.parent (r : DocRef) : CollRef := ⟨r.collPath⟩

/-- `doc(collectionRef, documentId)` from firebase/firestore. -/
def mkDoc (c : CollRef) (documentId : String) : DocRef := ⟨c.path, documentId⟩

/-- Resolve promise `i` in a promise pool with value `v`.  A promise only
takes the first value it is resolved with; resolving a settled or unknown
promise changes nothing (JS promise semantics). -/
def resolveAt {α : Type} (ps : List (Option α)) (i : Nat) (v : α) :
    List (Option α) :=
  match ps.get? i with
  | some none => ps.set i (some v)
  | _ => ps

/-- Errors escaping an operation.  `assertFail` is the library's internal
`assert` firing (a broken invariant); `thrown` is `handleError` re-throwing a
consumer-visible error because no error callback was registered, or an async
rejection. -/
inductive Err where
  | assertFail (msg : String)
  | thrown (msg : String)
deriving DecidableEq, Repr

/-- Externally visible events of the document observer. -/
inductive DocEvent (T : Type) where
  /-- `getDoc(documentRef)` issued (one-shot fetch), with fetch id. -/
  | fetch (path : String) (fid : Nat)
  /-- `onSnapshot(documentRef, …)` issued, with subscription id. -/
  | subscribe (path : String) (sub : Nat)
  /-- the unsubscribe function of subscription `sub` called. -/
  | unsubscribe (sub : Nat)
  /-- the registered `onData` callback invoked with `d`. -/
  | dataCallback (d : T)
  /-- the registered `onError` callback invoked. -/
  | errorCallback (msg : String)
  /-- the ready-promise resolver of promise `p` called with `v`. -/
  | resolveReady (p : Nat) (v : Option T)
  /-- `this.isLoading = b` executed. -/
  | loadingSet (b : Bool)
deriving DecidableEq, Repr

/-- The state of an `ObservableDocument<T>` (src/src/document.ts).  Callbacks
are opaque consumer code, so only their presence is tracked.  `promises` /
`pendingFetches` / `nextFetchId` / `nextSubId` model the JS heap of promises,
in-flight fetches and live subscriptions. -/
structure DocState (T : Type) where
  _data : Option T
  isLoading : Bool
  documentRef : Option DocRef
  collectionRef : Option CollRef
  readyPromise : Option Nat
  readyResolveFn : Option Nat
  onSnapshotUnsubscribeFn : Option Nat
  observedCount : Int
  firedInitialFetch : Bool
  sourcePath : Option String
  listenerSourcePath : Option String
  hasErrorCallback : Bool
  hasDataCallback : Bool
  promises : List (Option (Option T))
  pendingFetches : List Nat
  nextFetchId : Nat
  nextSubId : Nat
deriving DecidableEq, Repr

namespace ObservableDocument

variable {T : Type}

/-- The all-fields-empty state a fresh `ObservableDocument` starts from. -/
def emptyState : DocState T :=
  ⟨none, false, none, none, none, none, none, 0, false, none, none,
   false, false, [], [], 0, 0⟩

/-- `initializeReadyPromise` (document.ts:214-219): installs a fresh pending
promise and its resolver. -/
def initReadyPromise (s : DocState T) : DocState T :=
  { s with
    promises := s.promises ++ [none]
    readyPromise := some s.promises.length
    readyResolveFn := some s.promises.length }

/-- `get id()` (document.ts:115-117): the bound document id or the
`"__no_id"` sentinel. -/
def docId (s : DocState T) : String :=
  match s.documentRef with
  | some r => r.docId
  | none => "__no_id"

/-- `get hasData()` (document.ts:190-192). -/
def hasData (s : DocState T) : Bool := s._data.isSome

/-- `changeReady` (document.ts:194-212): when becoming ready, resolve the
current ready promise with the current data and replace `readyPromise` with an
already-resolved promise.  The resolver field is asserted to exist. -/
def changeReady (s : DocState T) (isReady : Bool) :
    DocState T × List (DocEvent T) × Except Err Unit :=
  if isReady then
    match s.readyResolveFn with
    | none => (s, [], Except.error (Err.assertFail "Missing ready resolve function"))
    | some i =>
      let v := s._data
      let ps := resolveAt s.promises i v
      ({ s with
          promises := ps ++ [some v]
          readyPromise := some ps.length },
        [DocEvent.resolveReady i v], Except.ok ())
  else (s, [], Except.ok ())

/-- `changeLoadingState` (document.ts:452-458): first `changeReady(!b)`, then
`isLoading = b`.  If the assert inside `changeReady` throws, the write to
`isLoading` is never executed. -/
def changeLoadingState (s : DocState T) (isLoading : Bool) :
    DocState T × List (DocEvent T) × Except Err Unit :=
  match changeReady s (!isLoading) with
  | (s1, ev, Except.error e) => (s1, ev, Except.error e)
  | (s1, ev, Except.ok _) =>
      ({ s1 with isLoading := isLoading },
        ev ++ [DocEvent.loadingSet isLoading], Except.ok ())

/-- `handleError` (document.ts:289-295): route to the registered error
callback, otherwise throw. -/
def handleError (s : DocState T) (msg : String) :
    DocState T × List (DocEvent T) × Except Err Unit :=
  if s.hasErrorCallback then (s, [DocEvent.errorCallback msg], Except.ok ())
  else (s, [], Except.error (Err.thrown msg))

/-- `handleSnapshot` (document.ts:267-284): store the snapshot data, invoke
the data callback only when the snapshot exists, then flip loading off (which
resolves the ready promise).  A snapshot is `some d` when the document exists
with data `d`, else `none`. -/
def dataCallbackEvents (snap : Option T) (hasCb : Bool) : List (DocEvent T) :=
  match snap, hasCb with
  | some d, true => [DocEvent.dataCallback d]
  | _, _ => []

def handleSnapshot (s : DocState T) (snap : Option T) :
    DocState T × List (DocEvent T) × Except Err Unit :=
  match changeLoadingState { s with _data := snap } false with
  | (s2, ev2, r) => (s2, dataCallbackEvents snap s.hasDataCallback ++ ev2, r)

/-- `fetchInitialData` (document.ts:221-243): issue a one-shot `getDoc` unless
one was already fired for this source generation or no ref is bound. -/
def fetchInitialData (s : DocState T) : DocState T × List (DocEvent T) :=
  if s.firedInitialFetch then (s, [])
  else
    match s.documentRef with
    | none => (s, [])
    | some r =>
      ({ s with
          pendingFetches := s.pendingFetches ++ [s.nextFetchId]
          nextFetchId := s.nextFetchId + 1
          firedInitialFetch := true },
        [DocEvent.fetch r.path s.nextFetchId])

/-- `ready` (document.ts:170-188): if no live listener and a ref is bound,
trigger a one-shot fetch; always return the current ready promise, which is
asserted to exist. -/
def ready (s : DocState T) : DocState T × List (DocEvent T) × Except Err Nat :=
  let isListening := s.onSnapshotUnsubscribeFn.isSome
  let r1 :=
    if !isListening && s.documentRef.isSome then fetchInitialData s else (s, [])
  match r1.1.readyPromise with
  | none => (r1.1, r1.2, Except.error (Err.assertFail "Missing ready promise"))
  | some p => (r1.1, r1.2, Except.ok p)

/-- `updateListeners` (document.ts:403-450): the shared listener
attach/detach algorithm.  Listening is requested while the desired source
identity (`sourcePath`) equals the identity the existing listener was created
for (`listenerSourcePath`) is a no-op; otherwise any existing listener is
torn down first and a new subscription is issued only if a ref is bound. -/
def updateListeners (s : DocState T) (shouldListen : Bool) :
    DocState T × List (DocEvent T) :=
  match s.onSnapshotUnsubscribeFn, shouldListen with
  | some k, true =>
    if s.sourcePath = s.listenerSourcePath then (s, [])
    else
      let s1 := { s with
        onSnapshotUnsubscribeFn := none
        listenerSourcePath := none }
      match s1.documentRef with
      | none => (s1, [DocEvent.unsubscribe k])
      | some r =>
        ({ s1 with
            onSnapshotUnsubscribeFn := some s1.nextSubId
            nextSubId := s1.nextSubId + 1
            listenerSourcePath := s1.sourcePath },
          [DocEvent.unsubscribe k, DocEvent.subscribe r.path s1.nextSubId])
  | some k, false =>
    ({ s with
        onSnapshotUnsubscribeFn := none
        listenerSourcePath := none },
      [DocEvent.unsubscribe k])
  | none, true =>
    match s.documentRef with
    | none => (s, [])
    | some r =>
      ({ s with
          onSnapshotUnsubscribeFn := some s.nextSubId
          nextSubId := s.nextSubId + 1
          listenerSourcePath := s.sourcePath },
        [DocEvent.subscribe r.path s.nextSubId])
  | none, false => (s, [])

/-- The common tail of both source-change paths (document.ts:319-334 and
371-386, the `@TODO make D.R.Y.` blocks): refresh listeners if observed, then
set the loading state to whether a source is now present. -/
def applySourceBranch (s : DocState T) (hasSource : Bool) :
    DocState T × List (DocEvent T) × Except Err Unit :=
  let r1 := if s.observedCount > 0 then updateListeners s hasSource else (s, [])
  match changeLoadingState r1.1 hasSource with
  | (s4, ev2, r) => (s4, r1.2 ++ ev2, r)

/-- The guard `this.documentRef && ref && this.documentRef.path === ref.path`
(document.ts:301). -/
def samePath : Option DocRef → Option DocRef → Bool
  | some dr, some r => dr.path == r.path
  | _, _ => false

/-- `changeSourceViaRef` (document.ts:297-335).  Setting a ref with the same
path as the current one is a no-op; otherwise the source fields are replaced,
a fresh ready promise installed, data cleared, listeners refreshed when
observed and loading re-armed. -/
def changeSourceViaRef (s : DocState T) (ref : Option DocRef) :
    DocState T × List (DocEvent T) × Except Err Unit :=
  if samePath s.documentRef ref then
    (s, [], Except.ok ())
  else
    let s1 := initReadyPromise
      { s with
          documentRef := ref
          sourcePath := ref.map DocRef.path
          firedInitialFetch := false }
    applySourceBranch { s1 with _data := none } ref.isSome

/-- JS truthiness of the `documentId` argument: `undefined` and `""` are
falsy. -/
def idTruthy : Option String → Bool
  | some d => d ≠ ""
  | none => false

/-- `getPathFromCollectionRef` (document.ts:41-43). -/
def pathFromCollectionRef (c : Option CollRef) : Option String :=
  c.map (fun cr => cr.path ++ "/__no_document_id")

/-- `changeSourceViaId` (document.ts:337-387).  A no-op when the id getter
already equals the argument; a routed configuration error when an id is given
without a known parent collection; otherwise the sibling ref is derived and
the same reset as the by-ref path runs. -/
def changeSourceViaId (s : DocState T) (documentId : Option String) :
    DocState T × List (DocEvent T) × Except Err Unit :=
  if documentId = some (docId s) then (s, [], Except.ok ())
  else if idTruthy documentId && s.collectionRef.isNone then
    handleError s "Can not change source via id if there is no known collection reference"
  else
    let newRef : Option DocRef :=
      match documentId, s.collectionRef with
      | some d, some c => if d = "" then none else some (mkDoc c d)
      | _, _ => none
    let newPath : Option String :=
      match newRef with
      | some r => some r.path
      | none => pathFromCollectionRef s.collectionRef
    let s1 := initReadyPromise
      { s with
          documentRef := newRef
          sourcePath := newPath
          firedInitialFetch := false }
    applySourceBranch { s1 with _data := none } newRef.isSome

/-- `attachTo` (document.ts:119-130): strings and falsy arguments go through
the by-id path, refs through the by-ref path. -/
def attachTo (s : DocState T) (arg : Option (Sum String DocRef)) :
    DocState T × List (DocEvent T) × Except Err Unit :=
  match arg with
  | none => changeSourceViaId s none
  | some (Sum.inl d) => changeSourceViaId s (some d)
  | some (Sum.inr r) => changeSourceViaRef s (some r)

/-- `resumeUpdates` (document.ts:245-254): mobx became-observed hook. -/
def resumeUpdates (s : DocState T) : DocState T × List (DocEvent T) :=
  let s1 := { s with observedCount := s.observedCount + 1 }
  if s1.observedCount = 1 then updateListeners s1 true else (s1, [])

/-- `suspendUpdates` (document.ts:256-265): mobx became-unobserved hook. -/
def suspendUpdates (s : DocState T) : DocState T × List (DocEvent T) :=
  let s1 := { s with observedCount := s.observedCount - 1 }
  if s1.observedCount = 0 then updateListeners s1 false else (s1, [])

/-- Resolution of an in-flight one-shot fetch: the `.then(handleSnapshot)`
continuation of `getDoc` (document.ts:234-235).  Only an actually outstanding
fetch can resolve. -/
def fetchResolve (s : DocState T) (fid : Nat) (snap : Option T) :
    DocState T × List (DocEvent T) × Except Err Unit :=
  if fid ∈ s.pendingFetches then
    handleSnapshot { s with pendingFetches := s.pendingFetches.erase fid } snap
  else (s, [], Except.ok ())

/-- Rejection of an in-flight one-shot fetch: the `.catch` continuation
(document.ts:236-240). -/
def fetchReject (s : DocState T) (fid : Nat) (msg : String) :
    DocState T × List (DocEvent T) × Except Err Unit :=
  if fid ∈ s.pendingFetches then
    handleError { s with pendingFetches := s.pendingFetches.erase fid }
      ("Fetch initial data failed: " ++ msg)
  else (s, [], Except.ok ())

/-- A live listener delivering a snapshot (document.ts:439).  The store
client never fires a callback after its unsubscribe function ran, so delivery
is guarded on the subscription being the current one. -/
def listenSnap (s : DocState T) (sub : Nat) (snap : Option T) :
    DocState T × List (DocEvent T) × Except Err Unit :=
  if s.onSnapshotUnsubscribeFn = some sub then handleSnapshot s snap
  else (s, [], Except.ok ())

/-- A live listener delivering an error (document.ts:440). -/
def listenError (s : DocState T) (sub : Nat) (msg : String) :
    DocState T × List (DocEvent T) × Except Err Unit :=
  if s.onSnapshotUnsubscribeFn = some sub then handleError s msg
  else (s, [], Except.ok ())

/-- The constructor (document.ts:67-113).  A ready promise is always
installed first; a document-ref source additionally records the parent
collection and immediately enters the loading state. -/
def construct (source : Option (Sum DocRef CollRef)) :
    DocState T × List (DocEvent T) :=
  let s0 : DocState T := initReadyPromise emptyState
  match source with
  | none => (s0, [])
  | some (Sum.inr c) =>
    ({ s0 with collectionRef := some c, sourcePath := some c.path }, [])
  | some (Sum.inl r) =>
    let s1 := { s0 with
      documentRef := some r
      collectionRef := some r.parent
      sourcePath := some r.path }
    match changeLoadingState s1 true with
    | (s2, ev, _) => (s2, ev)

/-- `onError` registration (document.ts:147-150). -/
def setOnError (s : DocState T) : DocState T := { s with hasErrorCallback := true }

/-- `onData` registration (document.ts:152-155). -/
def setOnData (s : DocState T) : DocState T := { s with hasDataCallback := true }

end ObservableDocument

/-- A concrete Firestore query, as derived by a query-creator function from a
collection reference.  `Query.isEqual` in the store client is structural
equality on this representation. -/
structure Query where
  collPath : String
  params : String
deriving DecidableEq, Repr

/-- The public, read-only shape `Document<T> = {id, data, ref}` that a
collection snapshot row is mapped to (collection.ts:331-338). -/
structure CollDoc (T : Type) where
  docId : String
  ref : DocRef
  data : T
deriving DecidableEq, Repr

/-- Externally visible events of the collection observer. -/
inductive CollEvent (T : Type) where
  /-- `this._query.get()` issued (one-shot fetch of a query). -/
  | fetchQuery (q : Query) (fid : Nat)
  /-- `this.collectionRef.get()` issued (one-shot fetch of a whole
  collection, the no-query fallback). -/
  | fetchCollection (path : String) (fid : Nat)
  /-- `this._query.onSnapshot(…)` issued. -/
  | subscribeQuery (q : Query) (sub : Nat)
  /-- `this.collectionRef.onSnapshot(…)` issued (no-query fallback). -/
  | subscribeCollection (path : String) (sub : Nat)
  /-- the unsubscribe function of subscription `sub` called. -/
  | unsubscribe (sub : Nat)
  /-- the consumer `onError` callback invoked. -/
  | errorCallback (msg : String)
  /-- the ready-promise resolver of promise `p` called with `v`. -/
  | resolveReady (p : Nat) (v : List (CollDoc T))
  /-- `this.isLoading = b` executed. -/
  | loadingSet (b : Bool)
  /-- `collectionRef.add(d)` issued. -/
  | addDoc (path : String) (d : T)
deriving DecidableEq, Repr

/-- The state of an `ObservableCollection<T>` (src/src/collection.ts).  The
query-creator function is kept as a real function from collection refs to
queries; `sourcePath` is the opaque `shortid.generate()` token, modelled by a
counter `nextToken`. -/
structure CollState (T : Type) where
  docs : List (CollDoc T)
  isLoading : Bool
  collectionRef : Option CollRef
  _query : Option Query
  queryCreatorFn : Option (CollRef → Query)
  readyPromise : Option Nat
  readyResolveFn : Option Nat
  onSnapshotUnsubscribeFn : Option Nat
  ignoreInitialSnapshot : Bool
  observedCount : Int
  firedInitialFetch : Bool
  sourcePath : Option Nat
  listenerSourcePath : Option Nat
  hasErrorCallback : Bool
  promises : List (Option (List (CollDoc T)))
  pendingFetches : List Nat
  nextFetchId : Nat
  nextSubId : Nat
  nextToken : Nat
  subSkip : Nat

namespace ObservableCollection

variable {T : Type}

/-- The all-fields-empty state a fresh `ObservableCollection` starts from. -/
def emptyState : CollState T :=
  ⟨[], false, none, none, none, none, none, none, false, 0, false, none, none,
   false, [], [], 0, 0, 0, 0⟩

/-- `initializeReadyPromise` (collection.ts:230-235). -/
def initReadyPromise (s : CollState T) : CollState T :=
  { s with
    promises := s.promises ++ [none]
    readyPromise := some s.promises.length
    readyResolveFn := some s.promises.length }

/-- `changeReady` (collection.ts:210-228): resolve the ready promise with the
current `docs` and replace `readyPromise` with an already-resolved promise. -/
def changeReady (s : CollState T) (isReady : Bool) :
    CollState T × List (CollEvent T) × Except Err Unit :=
  if isReady then
    match s.readyResolveFn with
    | none => (s, [], Except.error (Err.assertFail "Missing ready resolve function"))
    | some i =>
      let ps := resolveAt s.promises i s.docs
      ({ s with
          promises := ps ++ [some s.docs]
          readyPromise := some ps.length },
        [CollEvent.resolveReady i s.docs], Except.ok ())
  else (s, [], Except.ok ())

/-- `changeLoadingState` (collection.ts:451-459). -/
def changeLoadingState (s : CollState T) (isLoading : Bool) :
    CollState T × List (CollEvent T) × Except Err Unit :=
  match changeReady s (!isLoading) with
  | (s1, ev, Except.error e) => (s1, ev, Except.error e)
  | (s1, ev, Except.ok _) =>
      ({ s1 with isLoading := isLoading },
        ev ++ [CollEvent.loadingSet isLoading], Except.ok ())

/-- `handleError` (collection.ts:302-308). -/
def handleError (s : CollState T) (msg : String) :
    CollState T × List (CollEvent T) × Except Err Unit :=
  if s.hasErrorCallback then (s, [CollEvent.errorCallback msg], Except.ok ())
  else (s, [], Except.error (Err.thrown msg))

/-- `handleSnapshot` (collection.ts:310-344): replace the document list
wholesale with the mapped snapshot rows, then flip loading off. -/
def handleSnapshot (s : CollState T) (rows : List (CollDoc T)) :
    CollState T × List (CollEvent T) × Except Err Unit :=
  changeLoadingState { s with docs := rows } false

/-- `fetchInitialData` (collection.ts:237-278): a routed error when no
collection ref is bound; otherwise a one-shot get of the query if present,
else of the whole collection. -/
def fetchInitialData (s : CollState T) :
    CollState T × List (CollEvent T) × Except Err Unit :=
  if s.firedInitialFetch then (s, [], Except.ok ())
  else
    match s.collectionRef with
    | none => handleError s "Can not fetch data without a collection reference"
    | some c =>
      let ev : List (CollEvent T) :=
        match s._query with
        | some q => [CollEvent.fetchQuery q s.nextFetchId]
        | none => [CollEvent.fetchCollection c.path s.nextFetchId]
      ({ s with
          pendingFetches := s.pendingFetches ++ [s.nextFetchId]
          nextFetchId := s.nextFetchId + 1
          firedInitialFetch := true },
        ev, Except.ok ())

/-- `ready` (collection.ts:192-208).  Unlike the document observer, the fetch
is attempted whenever no listener is active, even with no ref bound, so the
missing-ref error surfaces from inside `ready`.  A thrown error aborts
`ready` before it can return the promise. -/
def ready (s : CollState T) :
    CollState T × List (CollEvent T) × Except Err Nat :=
  let r1 :=
    if s.onSnapshotUnsubscribeFn.isSome then (s, [], Except.ok ())
    else fetchInitialData s
  match r1 with
  | (s1, ev, Except.error e) => (s1, ev, Except.error e)
  | (s1, ev, Except.ok _) =>
    match s1.readyPromise with
    | none => (s1, ev, Except.error (Err.assertFail "Missing ready promise"))
    | some p => (s1, ev, Except.ok p)

/-- `updateListeners` (collection.ts:407-449).  Same skeleton as the document
observer; the subscription targets the query when present, else the bare
collection ref; `listenerSourcePath` is recorded even when neither is bound.
Each new subscription arms the `executeFromCount` skip counter from the
`ignoreInitialSnapshot` option. -/
def updateListeners (s : CollState T) (shouldListen : Bool) :
    CollState T × List (CollEvent T) :=
  let isListening := s.onSnapshotUnsubscribeFn.isSome
  if shouldListen && isListening && (s.sourcePath == s.listenerSourcePath) then
    (s, [])
  else
    let r1 : CollState T × List (CollEvent T) :=
      match s.onSnapshotUnsubscribeFn with
      | some k =>
        ({ s with
            onSnapshotUnsubscribeFn := none
            listenerSourcePath := none }, [CollEvent.unsubscribe k])
      | none => (s, [])
    if shouldListen then
      let s1 := r1.1
      let skip : Nat := if s1.ignoreInitialSnapshot then 1 else 0
      let r2 : CollState T × List (CollEvent T) :=
        match s1._query, s1.collectionRef with
        | some q, _ =>
          ({ s1 with
              onSnapshotUnsubscribeFn := some s1.nextSubId
              nextSubId := s1.nextSubId + 1
              subSkip := skip },
            [CollEvent.subscribeQuery q s1.nextSubId])
        | none, some c =>
          ({ s1 with
              onSnapshotUnsubscribeFn := some s1.nextSubId
              nextSubId := s1.nextSubId + 1
              subSkip := skip },
            [CollEvent.subscribeCollection c.path s1.nextSubId])
        | none, none => (s1, [])
      ({ r2.1 with listenerSourcePath := r2.1.sourcePath }, r1.2 ++ r2.2)
    else r1

/-- The "has a source" tail shared by `changeSource` and the `query` setter
(collection.ts:162-167 and 387-394): refresh listeners when observed, then
enter the loading state.  The document list is NOT cleared here. -/
def applyLoadBranch (s : CollState T) :
    CollState T × List (CollEvent T) × Except Err Unit :=
  let r3 := if s.observedCount > 0 then updateListeners s true else (s, [])
  match changeLoadingState r3.1 true with
  | (s4, ev2, r) => (s4, r3.2 ++ ev2, r)

/-- The "no source" tail shared by `changeSource` and the `query` setter
(collection.ts:168-176 and 379-386): drop listeners when observed, clear the
document list, leave the loading state. -/
def applyClearBranch (s : CollState T) :
    CollState T × List (CollEvent T) × Except Err Unit :=
  let r3 := if s.observedCount > 0 then updateListeners s false else (s, [])
  match changeLoadingState { r3.1 with docs := [] } false with
  | (s4, ev2, r) => (s4, r3.2 ++ ev2, r)

/-- `changeSource` (collection.ts:138-177), reached through `attachTo`.
No-op when both refs are absent or equal.  Note: on a switch to a new ref the
document list is NOT cleared, and the source token is only regenerated when a
query-creator function is registered. -/
def changeSource (s : CollState T) (newRef : Option CollRef) :
    CollState T × List (CollEvent T) × Except Err Unit :=
  match s.collectionRef, newRef with
  | none, none => (s, [], Except.ok ())
  | old?, new? =>
    if match old?, new? with
       | some c, some n => c.path == n.path
       | _, _ => false then
      (s, [], Except.ok ())
    else
      let s1 := initReadyPromise
        { s with firedInitialFetch := false, collectionRef := new? }
      match new? with
      | some n =>
        let s2 :=
          match s1.queryCreatorFn with
          | some f =>
            { s1 with
                _query := some (f n)
                sourcePath := some s1.nextToken
                nextToken := s1.nextToken + 1 }
          | none => s1
        applyLoadBranch s2
      | none => applyClearBranch s1

/-- `attachTo` (collection.ts:134-136). -/
def attachTo (s : CollState T) (newRef : Option CollRef) :
    CollState T × List (CollEvent T) × Except Err Unit :=
  changeSource s newRef

/-- The `query` setter (collection.ts:346-395).  The creator function is
stored before the no-op checks; a semantically equal derived query or a
still-absent query is a no-op; otherwise documents/listeners/loading are
reset, with a fresh source token. -/
def setQuery (s : CollState T) (qfn : Option (CollRef → Query)) :
    CollState T × List (CollEvent T) × Except Err Unit :=
  let s0 := { s with queryCreatorFn := qfn }
  let newQuery : Option Query :=
    match qfn, s0.collectionRef with
    | some f, some c => some (f c)
    | _, _ => none
  if match newQuery, s0._query with
     | some nq, some oq => nq == oq
     | _, _ => false then (s0, [], Except.ok ())
  else if newQuery.isNone && s0._query.isNone then (s0, [], Except.ok ())
  else
    let hasSource := s0.collectionRef.isSome || newQuery.isSome
    let s1 := { s0 with
      firedInitialFetch := false
      _query := newQuery
      sourcePath := some s0.nextToken
      nextToken := s0.nextToken + 1 }
    if hasSource then applyLoadBranch s1
    else applyClearBranch s1

/-- `add` (collection.ts:179-190): delegate to the store, or surface a
configuration error; the returned promise is rejected either way when no ref
is bound (when an error callback is registered it is invoked first). -/
def add (s : CollState T) (d : T) :
    CollState T × List (CollEvent T) × Except Err Unit :=
  match s.collectionRef with
  | none =>
    match handleError s "Can not add a document to a collection that has no ref" with
    | (s1, ev, Except.error e) => (s1, ev, Except.error e)
    | (s1, ev, Except.ok _) =>
      (s1, ev,
        Except.error (Err.thrown "Can not add a document to a collection that has no ref"))
  | some c => (s, [CollEvent.addDoc c.path d], Except.ok ())

/-- `resumeUpdates` (collection.ts:280-289). -/
def resumeUpdates (s : CollState T) : CollState T × List (CollEvent T) :=
  let s1 := { s with observedCount := s.observedCount + 1 }
  if s1.observedCount = 1 then updateListeners s1 true else (s1, [])

/-- `suspendUpdates` (collection.ts:291-300). -/
def suspendUpdates (s : CollState T) : CollState T × List (CollEvent T) :=
  let s1 := { s with observedCount := s.observedCount - 1 }
  if s1.observedCount = 0 then updateListeners s1 false else (s1, [])

/-- Resolution of an in-flight one-shot fetch (collection.ts:258-260 and
267-269). -/
def fetchResolve (s : CollState T) (fid : Nat) (rows : List (CollDoc T)) :
    CollState T × List (CollEvent T) × Except Err Unit :=
  if fid ∈ s.pendingFetches then
    handleSnapshot { s with pendingFetches := s.pendingFetches.erase fid } rows
  else (s, [], Except.ok ())

/-- Rejection of an in-flight one-shot fetch (collection.ts:261-265 and
270-274). -/
def fetchReject (s : CollState T) (fid : Nat) (msg : String) :
    CollState T × List (CollEvent T) × Except Err Unit :=
  if fid ∈ s.pendingFetches then
    handleError { s with pendingFetches := s.pendingFetches.erase fid }
      ("Fetch initial data failed: " ++ msg)
  else (s, [], Except.ok ())

/-- A live listener delivering a query snapshot, through the
`executeFromCount` wrapper (collection.ts:430-444, helpers `executeFromCount`):
the first `subSkip` snapshots of the subscription are dropped. -/
def listenSnap (s : CollState T) (sub : Nat) (rows : List (CollDoc T)) :
    CollState T × List (CollEvent T) × Except Err Unit :=
  if s.onSnapshotUnsubscribeFn = some sub then
    if s.subSkip > 0 then
      ({ s with subSkip := s.subSkip - 1 }, [], Except.ok ())
    else handleSnapshot s rows
  else (s, [], Except.ok ())

/-- A live listener delivering an error (collection.ts:435 and 443). -/
def listenError (s : CollState T) (sub : Nat) (msg : String) :
    CollState T × List (CollEvent T) × Except Err Unit :=
  if s.onSnapshotUnsubscribeFn = some sub then handleError s msg
  else (s, [], Except.ok ())

/-- The constructor (collection.ts:64-112): install the ready promise, record
the ref, derive the query and a source token if a creator function was given,
then enter the loading state iff a ref was given — regardless of whether a
query-creator function is present. -/
def construct (ref : Option CollRef) (qfn : Option (CollRef → Query))
    (ignoreInitial : Bool) : CollState T × List (CollEvent T) :=
  let s0 : CollState T := initReadyPromise emptyState
  let s1 :=
    match ref with
    | some c => { s0 with collectionRef := some c }
    | none => s0
  let s2 :=
    match qfn with
    | some f =>
      { s1 with
          queryCreatorFn := some f
          _query := ref.map f
          sourcePath := some s1.nextToken
          nextToken := s1.nextToken + 1 }
    | none => s1
  let s3 := { s2 with ignoreInitialSnapshot := ignoreInitial }
  match ref with
  | some _ =>
    match changeLoadingState s3 true with
    | (s4, ev, _) => (s4, ev)
  | none => (s3, [])

/-- Assignment of the public `onError` field (collection.ts:57). -/
def setOnError (s : CollState T) : CollState T := { s with hasErrorCallback := true }

end ObservableCollection

/-! ## Operation enumeration, step functions, runs and reachability

The public operations a consumer or the environment can perform on an
observer, as one step relation.  `fetchOk`/`fetchErr` are the asynchronous
continuations of an in-flight one-shot fetch; `snapIn`/`errIn` are live
listener callbacks. -/

/-- One public / asynchronous operation on an `ObservableDocument`. -/
inductive DocOp (T : Type) where
  | attach (arg : Option (Sum String DocRef))
  | readyOp
  | resume
  | suspend
  | regOnError
  | regOnData
  | fetchOk (fid : Nat) (snap : Option T)
  | fetchErr (fid : Nat) (msg : String)
  | snapIn (sub : Nat) (snap : Option T)
  | errIn (sub : Nat) (msg : String)

namespace ObservableDocument

variable {T : Type}

/-- The transition of one operation. -/
def docStep (s : DocState T) : DocOp T → DocState T × List (DocEvent T) × Except Err Unit
  | DocOp.attach a => attachTo s a
  | DocOp.readyOp =>
    match ready s with
    | (s1, ev, r) => (s1, ev, r.map fun _ => ())
  | DocOp.resume =>
    match resumeUpdates s with
    | (s1, ev) => (s1, ev, Except.ok ())
  | DocOp.suspend =>
    match suspendUpdates s with
    | (s1, ev) => (s1, ev, Except.ok ())
  | DocOp.regOnError => (setOnError s, [], Except.ok ())
  | DocOp.regOnData => (setOnData s, [], Except.ok ())
  | DocOp.fetchOk fid snap => fetchResolve s fid snap
  | DocOp.fetchErr fid msg => fetchReject s fid msg
  | DocOp.snapIn sub snap => listenSnap s sub snap
  | DocOp.errIn sub msg => listenError s sub msg

/-- Environment precondition of a step: mobx only fires the became-unobserved
hook after a matching became-observed hook, so the observed count is positive
when `suspend` runs.  All other operations are unconstrained. -/
def docPre (op : DocOp T) (s : DocState T) : Prop :=
  match op with
  | DocOp.suspend => 1 ≤ s.observedCount
  | _ => True

/-- Run a list of operations from a state, accumulating events. -/
def docRun (s : DocState T) : List (DocOp T) → DocState T × List (DocEvent T)
  | [] => (s, [])
  | op :: ops =>
    let r := docStep s op
    let r2 := docRun r.1 ops
    (r2.1, r.2.1 ++ r2.2)

/-- States (with their accumulated event history) reachable from a freshly
constructed observer through environment-respecting operation sequences. -/
inductive DocReachable : DocState T → List (DocEvent T) → Prop where
  | init (source : Option (Sum DocRef CollRef)) :
      DocReachable (construct source).1 (construct source).2
  | step {s : DocState T} {h : List (DocEvent T)} (op : DocOp T) :
      DocReachable s h → docPre op s →
      DocReachable (docStep s op).1 (h ++ (docStep s op).2.1)

/-- Subscriptions the store considers active after processing one event. -/
def docSubStep (acc : List Nat) : DocEvent T → List Nat
  | DocEvent.subscribe _ k => acc ++ [k]
  | DocEvent.unsubscribe k => acc.erase k
  | _ => acc

/-- Subscriptions the store considers active after an event history. -/
def docSubsFrom (acc : List Nat) (evs : List (DocEvent T)) : List Nat :=
  evs.foldl docSubStep acc

end ObservableDocument

/-- One public / asynchronous operation on an `ObservableCollection`. -/
inductive CollOp (T : Type) where
  | attach (newRef : Option CollRef)
  | setQueryOp (qfn : Option (CollRef → Query))
  | readyOp
  | addOp (d : T)
  | resume
  | suspend
  | regOnError
  | fetchOk (fid : Nat) (rows : List (CollDoc T))
  | fetchErr (fid : Nat) (msg : String)
  | snapIn (sub : Nat) (rows : List (CollDoc T))
  | errIn (sub : Nat) (msg : String)

namespace ObservableCollection

variable {T : Type}

/-- The transition of one operation. -/
def collStep (s : CollState T) : CollOp T → CollState T × List (CollEvent T) × Except Err Unit
  | CollOp.attach newRef => attachTo s newRef
  | CollOp.setQueryOp qfn => setQuery s qfn
  | CollOp.readyOp =>
    match ready s with
    | (s1, ev, r) => (s1, ev, r.map fun _ => ())
  | CollOp.addOp d => add s d
  | CollOp.resume =>
    match resumeUpdates s with
    | (s1, ev) => (s1, ev, Except.ok ())
  | CollOp.suspend =>
    match suspendUpdates s with
    | (s1, ev) => (s1, ev, Except.ok ())
  | CollOp.regOnError => (setOnError s, [], Except.ok ())
  | CollOp.fetchOk fid rows => fetchResolve s fid rows
  | CollOp.fetchErr fid msg => fetchReject s fid msg
  | CollOp.snapIn sub rows => listenSnap s sub rows
  | CollOp.errIn sub msg => listenError s sub msg

/-- Environment precondition: mobx keeps observe/unobserve balanced. -/
def collPre (op : CollOp T) (s : CollState T) : Prop :=
  match op with
  | CollOp.suspend => 1 ≤ s.observedCount
  | _ => True

/-- States (with event history) reachable from a freshly constructed
collection observer. -/
inductive CollReachable : CollState T → List (CollEvent T) → Prop where
  | init (ref : Option CollRef) (qfn : Option (CollRef → Query)) (ig : Bool) :
      CollReachable (construct ref qfn ig).1 (construct ref qfn ig).2
  | step {s : CollState T} {h : List (CollEvent T)} (op : CollOp T) :
      CollReachable s h → collPre op s →
      CollReachable (collStep s op).1 (h ++ (collStep s op).2.1)

/-- Subscriptions the store considers active after processing one event. -/
def collSubStep (acc : List Nat) : CollEvent T → List Nat
  | CollEvent.subscribeQuery _ k => acc ++ [k]
  | CollEvent.subscribeCollection _ k => acc ++ [k]
  | CollEvent.unsubscribe k => acc.erase k
  | _ => acc

/-- Subscriptions the store considers active after an event history. -/
def collSubsFrom (acc : List Nat) (evs : List (CollEvent T)) : List Nat :=
  evs.foldl collSubStep acc

end ObservableCollection

/-! ## Event classification helpers -/

/-- Is a document-observer event a store subscription? -/
def isDocSub {T : Type} : DocEvent T → Bool
  | DocEvent.subscribe _ _ => true
  | _ => false

/-- Is a document-observer event a one-shot store fetch? -/
def isDocFetch {T : Type} : DocEvent T → Bool
  | DocEvent.fetch _ _ => true
  | _ => false

/-- Is a collection-observer event a store subscription? -/
def isCollSub {T : Type} : CollEvent T → Bool
  | CollEvent.subscribeQuery _ _ => true
  | CollEvent.subscribeCollection _ _ => true
  | _ => false

/-- Is a collection-observer event a one-shot store fetch? -/
def isCollFetch {T : Type} : CollEvent T → Bool
  | CollEvent.fetchQuery _ _ => true
  | CollEvent.fetchCollection _ _ => true
  | _ => false

/-- Number of subscriptions issued in a document-observer event list. -/
def countDocSubs {T : Type} (evs : List (DocEvent T)) : Nat := evs.countP (isDocSub ·)

/-- Number of one-shot fetches issued in a document-observer event list. -/
def countDocFetches {T : Type} (evs : List (DocEvent T)) : Nat := evs.countP (isDocFetch ·)

/-- Number of subscriptions issued in a collection-observer event list. -/
def countCollSubs {T : Type} (evs : List (CollEvent T)) : Nat := evs.countP (isCollSub ·)

/-- Number of one-shot fetches issued in a collection-observer event list. -/
def countCollFetches {T : Type} (evs : List (CollEvent T)) : Nat := evs.countP (isCollFetch ·)

/-- Is an operation a source change (an `attachTo` call)? -/
def isAttach {T : Type} : DocOp T → Bool
  | DocOp.attach _ => true
  | _ => false

/-! ## Claims -/

/-- **C1, counterexample.**  The claim states that an `ObservableCollection`
constructed with a collection reference but no query-transform function
reports `isLoading = false` and never issues a fetch.  On the code, such a
constructor call enters the loading state immediately, and the first
`ready()` call issues a one-shot fetch against the bare collection
reference. -/
theorem C1_counterexample :
    (ObservableCollection.construct (T := Nat) (some ⟨"books"⟩) none false).1.isLoading = true
    ∧ countCollFetches
        (ObservableCollection.ready
          (ObservableCollection.construct (T := Nat) (some ⟨"books"⟩) none false).1).2.1 = 1 := by
  decide

/-- **C1, amended.**  For every `ObservableCollection` constructed with a
collection reference but no query-transform function: the document list is
empty and no store call is issued by the constructor itself, but `isLoading`
is `true` from construction, and calling `ready()` issues exactly one
one-shot fetch against the entire bare collection (this is the code's tested
behaviour: absence of a query means "fetch everything", not "don't fetch"). -/
theorem C1_amended (T : Type) (c : CollRef) :
    (ObservableCollection.construct (T := T) (some c) none false).1.docs = []
    ∧ (ObservableCollection.construct (T := T) (some c) none false).1.isLoading = true
    ∧ (ObservableCollection.construct (T := T) (some c) none false).2
        = [CollEvent.loadingSet true]
    ∧ (ObservableCollection.ready
        (ObservableCollection.construct (T := T) (some c) none false).1).2.1
        = [CollEvent.fetchCollection c.path 0]
    ∧ (ObservableCollection.ready
        (ObservableCollection.construct (T := T) (some c) none false).1).2.2
        = Except.ok 0 :=
  ⟨rfl, rfl, rfl, rfl, rfl⟩

/-- **C9.**  Calling `ready()` on a collection observer with no collection
reference bound and no live listener raises the error
"Can not fetch data without a collection reference": it is routed to the
error callback when one is registered (and the still-pending ready promise is
returned), and thrown out of `ready()` otherwise — unlike the document
observer, whose `ready()` with no locator silently returns its promise
without contacting the store. -/
theorem C9_theorem (T : Type) (s : CollState T) (p : Nat) (sd : DocState T) (q : Nat)
    (href : s.collectionRef = none)
    (hl : s.onSnapshotUnsubscribeFn = none)
    (hf : s.firedInitialFetch = false)
    (hp : s.readyPromise = some p)
    (hdref : sd.documentRef = none)
    (hdp : sd.readyPromise = some q) :
    (s.hasErrorCallback = true →
      ObservableCollection.ready s =
        (s, [CollEvent.errorCallback "Can not fetch data without a collection reference"],
          Except.ok p))
    ∧ (s.hasErrorCallback = false →
      ObservableCollection.ready s =
        (s, [], Except.error (Err.thrown "Can not fetch data without a collection reference")))
    ∧ ObservableDocument.ready sd = (sd, [], Except.ok q) := by
  refine ⟨fun hcb => ?_, fun hcb => ?_, ?_⟩
  · simp [ObservableCollection.ready, ObservableCollection.fetchInitialData,
      ObservableCollection.handleError, href, hl, hf, hp, hcb]
  · simp [ObservableCollection.ready, ObservableCollection.fetchInitialData,
      ObservableCollection.handleError, href, hl, hf, hp, hcb]
  · simp [ObservableDocument.ready, hdref, hdp]

/-- **C9, witness.**  The theorem applied to freshly constructed observers:
one collection observer with an error callback registered, one without, and a
document observer with no source. -/
theorem C9_witness :
    ObservableCollection.ready
        (ObservableCollection.setOnError
          (ObservableCollection.construct (T := Nat) none none false).1) =
      (ObservableCollection.setOnError
          (ObservableCollection.construct (T := Nat) none none false).1,
        [CollEvent.errorCallback "Can not fetch data without a collection reference"],
        Except.ok 0)
    ∧ ObservableCollection.ready (ObservableCollection.construct (T := Nat) none none false).1 =
      ((ObservableCollection.construct (T := Nat) none none false).1, [],
        Except.error (Err.thrown "Can not fetch data without a collection reference"))
    ∧ ObservableDocument.ready (ObservableDocument.construct (T := Nat) none).1 =
      ((ObservableDocument.construct (T := Nat) none).1, [], Except.ok 0) := by
  refine ⟨?_, ?_, ?_⟩
  · exact (C9_theorem Nat _ 0 (ObservableDocument.construct (T := Nat) none).1 0
      rfl rfl rfl rfl rfl rfl).1 rfl
  · exact (C9_theorem Nat _ 0 (ObservableDocument.construct (T := Nat) none).1 0
      rfl rfl rfl rfl rfl rfl).2.1 rfl
  · exact (C9_theorem Nat (ObservableCollection.construct (T := Nat) none none false).1 0
      _ 0 rfl rfl rfl rfl rfl rfl).2.2

/-- **C2, counterexample.**  The claim states that `ready()` on a document
observer with no locator returns a promise that resolves to absent.  On the
code, a freshly constructed no-source observer's `ready()` returns the
constructor's ready promise, and nothing ever resolves it: after `ready()`,
an observation cycle and another `ready()`, promise 0 is still pending and no
store or callback event occurred. -/
theorem C2_counterexample :
    (ObservableDocument.ready (ObservableDocument.construct (T := Nat) none).1).2.2
      = Except.ok 0
    ∧ (ObservableDocument.docRun (ObservableDocument.construct (T := Nat) none).1
        [DocOp.readyOp, DocOp.resume, DocOp.suspend, DocOp.readyOp]).2 = []
    ∧ (ObservableDocument.docRun (ObservableDocument.construct (T := Nat) none).1
        [DocOp.readyOp, DocOp.resume, DocOp.suspend, DocOp.readyOp]).1.promises
      = [none] :=
  ⟨rfl, rfl, rfl⟩

/-- **C2, amended.**  `ready()` on a document observer with no locator issues
no fetch or subscribe call and returns the current ready promise unchanged;
however, for an observer constructed without any source that promise does not
resolve to absent: it remains pending under every operation sequence that
does not change the source. -/
theorem C2_amended (T : Type) :
    (∀ (s : DocState T) (p : Nat), s.documentRef = none → s.readyPromise = some p →
      ObservableDocument.ready s = (s, [], Except.ok p))
    ∧ (∀ ops : List (DocOp T), (∀ op ∈ ops, isAttach op = false) →
      (ObservableDocument.docRun (ObservableDocument.construct none).1 ops).1.promises
        = [none]
      ∧ (ObservableDocument.docRun (ObservableDocument.construct none).1 ops).1.readyPromise
        = some 0) := by
  constructor
  · intro s p href hp
    simp [ObservableDocument.ready, href, hp]
  · intro ops hops
    suffices h : ∀ (ops : List (DocOp T)) (s : DocState T),
        (∀ op ∈ ops, isAttach op = false) →
        s.documentRef = none → s.onSnapshotUnsubscribeFn = none →
        s.pendingFetches = [] → s.promises = [none] → s.readyPromise = some 0 →
        (ObservableDocument.docRun s ops).1.promises = [none]
        ∧ (ObservableDocument.docRun s ops).1.readyPromise = some 0 by
      exact h ops (ObservableDocument.construct none).1 hops rfl rfl rfl rfl rfl
    intro ops
    induction ops with
    | nil =>
      intro s _ _ _ _ h4 h5
      exact ⟨h4, h5⟩
    | cons op rest ih =>
      intro s hops h1 h2 h3 h4 h5
      have hop : isAttach op = false := hops op (by simp)
      have hrest : ∀ op ∈ rest, isAttach op = false := fun o ho => hops o (by simp [ho])
      have hstep : (ObservableDocument.docStep s op).1.documentRef = none
          ∧ (ObservableDocument.docStep s op).1.onSnapshotUnsubscribeFn = none
          ∧ (ObservableDocument.docStep s op).1.pendingFetches = []
          ∧ (ObservableDocument.docStep s op).1.promises = [none]
          ∧ (ObservableDocument.docStep s op).1.readyPromise = some 0 := by
        cases op with
        | attach a => simp [isAttach] at hop
        | readyOp =>
          refine ⟨?_, ?_, ?_, ?_, ?_⟩ <;>
            simp [ObservableDocument.docStep, ObservableDocument.ready,
              ObservableDocument.fetchInitialData, h1, h2, h3, h4, h5]
        | resume =>
          refine ⟨?_, ?_, ?_, ?_, ?_⟩ <;>
            · simp only [ObservableDocument.docStep, ObservableDocument.resumeUpdates,
                ObservableDocument.updateListeners, h1, h2]
              split <;> simp [h1, h2, h3, h4, h5]
        | suspend =>
          refine ⟨?_, ?_, ?_, ?_, ?_⟩ <;>
            · simp only [ObservableDocument.docStep, ObservableDocument.suspendUpdates,
                ObservableDocument.updateListeners, h1, h2]
              split <;> simp [h1, h2, h3, h4, h5]
        | regOnError =>
          exact ⟨h1, h2, h3, h4, h5⟩
        | regOnData =>
          exact ⟨h1, h2, h3, h4, h5⟩
        | fetchOk fid snap =>
          refine ⟨?_, ?_, ?_, ?_, ?_⟩ <;>
            simp [ObservableDocument.docStep, ObservableDocument.fetchResolve,
              h1, h2, h3, h4, h5]
        | fetchErr fid msg =>
          refine ⟨?_, ?_, ?_, ?_, ?_⟩ <;>
            simp [ObservableDocument.docStep, ObservableDocument.fetchReject,
              h1, h2, h3, h4, h5]
        | snapIn sub snap =>
          refine ⟨?_, ?_, ?_, ?_, ?_⟩ <;>
            simp [ObservableDocument.docStep, ObservableDocument.listenSnap,
              h1, h2, h3, h4, h5]
        | errIn sub msg =>
          refine ⟨?_, ?_, ?_, ?_, ?_⟩ <;>
            simp [ObservableDocument.docStep, ObservableDocument.listenError,
              h1, h2, h3, h4, h5]
      have hrec := ih ((ObservableDocument.docStep s op).1) hrest
        hstep.1 hstep.2.1 hstep.2.2.1 hstep.2.2.2.1 hstep.2.2.2.2
      simpa [ObservableDocument.docRun] using hrec

/-- **C2, witness.**  The amended theorem evaluated on a freshly constructed
no-source observer followed by a concrete non-attaching operation sequence. -/
theorem C2_witness :
    ObservableDocument.ready (ObservableDocument.construct (T := Nat) none).1 =
      ((ObservableDocument.construct (T := Nat) none).1, [], Except.ok 0)
    ∧ (ObservableDocument.docRun (ObservableDocument.construct (T := Nat) none).1
        [DocOp.readyOp, DocOp.resume, DocOp.suspend]).1.promises = [none] := by
  refine ⟨(C2_amended Nat).1 _ 0 rfl rfl, ?_⟩
  exact ((C2_amended Nat).2 [DocOp.readyOp, DocOp.resume, DocOp.suspend]
    (by intro op hop; fin_cases hop <;> rfl)).1

/-! ## Projection lemmas: which state fields each document-observer helper
leaves untouched -/

namespace ObservableDocument

variable {T : Type}

theorem changeReady_proj (s : DocState T) (b : Bool) :
    (changeReady s b).1._data = s._data
    ∧ (changeReady s b).1.isLoading = s.isLoading
    ∧ (changeReady s b).1.documentRef = s.documentRef
    ∧ (changeReady s b).1.collectionRef = s.collectionRef
    ∧ (changeReady s b).1.readyResolveFn = s.readyResolveFn
    ∧ (changeReady s b).1.onSnapshotUnsubscribeFn = s.onSnapshotUnsubscribeFn
    ∧ (changeReady s b).1.observedCount = s.observedCount
    ∧ (changeReady s b).1.firedInitialFetch = s.firedInitialFetch
    ∧ (changeReady s b).1.sourcePath = s.sourcePath
    ∧ (changeReady s b).1.listenerSourcePath = s.listenerSourcePath
    ∧ (changeReady s b).1.hasErrorCallback = s.hasErrorCallback
    ∧ (changeReady s b).1.hasDataCallback = s.hasDataCallback
    ∧ (changeReady s b).1.pendingFetches = s.pendingFetches
    ∧ (changeReady s b).1.nextFetchId = s.nextFetchId
    ∧ (changeReady s b).1.nextSubId = s.nextSubId := by
  cases b <;> simp [changeReady] <;> cases h : s.readyResolveFn <;> simp [h]

theorem changeLoadingState_proj (s : DocState T) (b : Bool) :
    (changeLoadingState s b).1._data = s._data
    ∧ (changeLoadingState s b).1.documentRef = s.documentRef
    ∧ (changeLoadingState s b).1.collectionRef = s.collectionRef
    ∧ (changeLoadingState s b).1.readyResolveFn = s.readyResolveFn
    ∧ (changeLoadingState s b).1.onSnapshotUnsubscribeFn = s.onSnapshotUnsubscribeFn
    ∧ (changeLoadingState s b).1.observedCount = s.observedCount
    ∧ (changeLoadingState s b).1.firedInitialFetch = s.firedInitialFetch
    ∧ (changeLoadingState s b).1.sourcePath = s.sourcePath
    ∧ (changeLoadingState s b).1.listenerSourcePath = s.listenerSourcePath
    ∧ (changeLoadingState s b).1.hasErrorCallback = s.hasErrorCallback
    ∧ (changeLoadingState s b).1.hasDataCallback = s.hasDataCallback
    ∧ (changeLoadingState s b).1.pendingFetches = s.pendingFetches
    ∧ (changeLoadingState s b).1.nextFetchId = s.nextFetchId
    ∧ (changeLoadingState s b).1.nextSubId = s.nextSubId := by
  have h := changeReady_proj s (!b)
  unfold changeLoadingState
  cases hr : changeReady s (!b) with
  | mk s1 rest =>
    rw [hr] at h
    simp only at h
    obtain ⟨c1, _, c3, c4, c5, c6, c7, c8, c9, c10, c11, c12, c13, c14, c15⟩ := h
    cases rest with
    | mk ev r =>
      cases r <;> simp <;>
        exact ⟨c1, c3, c4, c5, c6, c7, c8, c9, c10, c11, c12, c13, c14, c15⟩

theorem updateListeners_proj (s : DocState T) (b : Bool) :
    (updateListeners s b).1._data = s._data
    ∧ (updateListeners s b).1.isLoading = s.isLoading
    ∧ (updateListeners s b).1.documentRef = s.documentRef
    ∧ (updateListeners s b).1.collectionRef = s.collectionRef
    ∧ (updateListeners s b).1.readyPromise = s.readyPromise
    ∧ (updateListeners s b).1.readyResolveFn = s.readyResolveFn
    ∧ (updateListeners s b).1.observedCount = s.observedCount
    ∧ (updateListeners s b).1.firedInitialFetch = s.firedInitialFetch
    ∧ (updateListeners s b).1.sourcePath = s.sourcePath
    ∧ (updateListeners s b).1.hasErrorCallback = s.hasErrorCallback
    ∧ (updateListeners s b).1.hasDataCallback = s.hasDataCallback
    ∧ (updateListeners s b).1.promises = s.promises
    ∧ (updateListeners s b).1.pendingFetches = s.pendingFetches
    ∧ (updateListeners s b).1.nextFetchId = s.nextFetchId := by
  unfold updateListeners
  cases h : s.onSnapshotUnsubscribeFn with
  | none =>
    cases b with
    | false => simp
    | true => cases hr : s.documentRef <;> simp [hr]
  | some k =>
    cases b with
    | false => simp
    | true =>
      by_cases hsp : s.sourcePath = s.listenerSourcePath
      · simp [hsp]
      · cases hr : s.documentRef <;> simp [hsp, hr]

theorem applySourceBranch_proj (s : DocState T) (b : Bool) :
    (applySourceBranch s b).1._data = s._data
    ∧ (applySourceBranch s b).1.documentRef = s.documentRef
    ∧ (applySourceBranch s b).1.collectionRef = s.collectionRef
    ∧ (applySourceBranch s b).1.readyResolveFn = s.readyResolveFn
    ∧ (applySourceBranch s b).1.observedCount = s.observedCount
    ∧ (applySourceBranch s b).1.firedInitialFetch = s.firedInitialFetch
    ∧ (applySourceBranch s b).1.sourcePath = s.sourcePath
    ∧ (applySourceBranch s b).1.hasErrorCallback = s.hasErrorCallback
    ∧ (applySourceBranch s b).1.hasDataCallback = s.hasDataCallback
    ∧ (applySourceBranch s b).1.pendingFetches = s.pendingFetches
    ∧ (applySourceBranch s b).1.nextFetchId = s.nextFetchId := by
  unfold applySourceBranch
  by_cases ho : s.observedCount > 0 <;> simp [ho]
  · obtain ⟨a1, _, a3, a4, _, a6, a7, a8, a9, a10, a11, _, a13, a14⟩ :=
      updateListeners_proj s b
    have h2 := changeLoadingState_proj (updateListeners s b).1 b
    cases hc : changeLoadingState (updateListeners s b).1 b with
    | mk s4 rest =>
      rw [hc] at h2
      simp only at h2 ⊢
      obtain ⟨b1, b2, b3, b4, _, b6, b7, b8, _, b10, b11, b12, b13, _⟩ := h2
      exact ⟨b1.trans a1, b2.trans a3, b3.trans a4, b4.trans a6, b6.trans a7,
        b7.trans a8, b8.trans a9, b10.trans a10, b11.trans a11, b12.trans a13,
        b13.trans a14⟩
  · have h2 := changeLoadingState_proj s b
    cases hc : changeLoadingState s b with
    | mk s4 rest =>
      rw [hc] at h2
      simp only at h2 ⊢
      obtain ⟨b1, b2, b3, b4, _, b6, b7, b8, _, b10, b11, b12, b13, _⟩ := h2
      exact ⟨b1, b2, b3, b4, b6, b7, b8, b10, b11, b12, b13⟩

end ObservableDocument

/-! ## Subscription counts in the events of each document-observer helper -/

namespace ObservableDocument

variable {T : Type}

theorem subsCount_changeReady (s : DocState T) (b : Bool) :
    countDocSubs (changeReady s b).2.1 = 0 := by
  cases b <;> simp [changeReady, countDocSubs] <;>
    cases h : s.readyResolveFn <;> simp [h, isDocSub]

theorem subsCount_changeLoadingState (s : DocState T) (b : Bool) :
    countDocSubs (changeLoadingState s b).2.1 = 0 := by
  have h := subsCount_changeReady s (!b)
  unfold changeLoadingState
  cases hr : changeReady s (!b) with
  | mk s1 rest =>
    rw [hr] at h
    simp only at h
    cases rest with
    | mk ev r =>
      cases r <;> simpa [countDocSubs, List.countP_append, isDocSub] using h

theorem subsCount_updateListeners_le (s : DocState T) (b : Bool) :
    countDocSubs (updateListeners s b).2 ≤ 1 := by
  unfold updateListeners
  cases h : s.onSnapshotUnsubscribeFn with
  | none =>
    cases b with
    | false => simp [countDocSubs]
    | true => cases hr : s.documentRef <;> simp [hr, countDocSubs, isDocSub]
  | some k =>
    cases b with
    | false => simp [countDocSubs, isDocSub]
    | true =>
      by_cases hsp : s.sourcePath = s.listenerSourcePath
      · simp [hsp, countDocSubs]
      · cases hr : s.documentRef <;> simp [hsp, hr, countDocSubs, isDocSub]

theorem subsCount_updateListeners_false (s : DocState T) :
    countDocSubs (updateListeners s false).2 = 0 := by
  unfold updateListeners
  cases h : s.onSnapshotUnsubscribeFn <;> simp [countDocSubs, isDocSub]

theorem subsCount_applySourceBranch_le (s : DocState T) (b : Bool) :
    countDocSubs (applySourceBranch s b).2.1 ≤ 1 := by
  unfold applySourceBranch
  by_cases ho : s.observedCount > 0 <;> simp [ho]
  · have h1 := subsCount_updateListeners_le s b
    have h2 := subsCount_changeLoadingState (updateListeners s b).1 b
    cases hc : changeLoadingState (updateListeners s b).1 b with
    | mk s4 rest =>
      rw [hc] at h2
      simp only at h2
      cases rest with
      | mk ev r =>
        simp only [countDocSubs] at h1 h2 ⊢
        simp only [List.countP_append]
        omega
  · have h2 := subsCount_changeLoadingState s b
    cases hc : changeLoadingState s b with
    | mk s4 rest =>
      rw [hc] at h2
      simp only at h2
      cases rest with
      | mk ev r =>
        simp only [countDocSubs] at h2 ⊢
        omega

theorem subsCount_applySourceBranch_false (s : DocState T) :
    countDocSubs (applySourceBranch s false).2.1 = 0 := by
  unfold applySourceBranch
  by_cases ho : s.observedCount > 0 <;> simp [ho]
  · have h1 := subsCount_updateListeners_false s
    have h2 := subsCount_changeLoadingState (updateListeners s false).1 false
    cases hc : changeLoadingState (updateListeners s false).1 false with
    | mk s4 rest =>
      rw [hc] at h2
      simp only at h2
      cases rest with
      | mk ev r =>
        simp only [countDocSubs, List.countP_append] at h1 h2 ⊢
        omega
  · have h2 := subsCount_changeLoadingState s false
    cases hc : changeLoadingState s false with
    | mk s4 rest =>
      rw [hc] at h2
      simp only at h2
      cases rest with
      | mk ev r => simpa [countDocSubs] using h2

theorem subsCount_handleError (s : DocState T) (msg : String) :
    countDocSubs (handleError s msg).2.1 = 0 := by
  by_cases h : s.hasErrorCallback <;> simp [handleError, h, countDocSubs, isDocSub]

end ObservableDocument

/-! ## Source-change helper lemmas for the document observer -/

namespace ObservableDocument

variable {T : Type}

theorem changeSourceViaRef_collRef (s : DocState T) (ref : Option DocRef) :
    (changeSourceViaRef s ref).1.collectionRef = s.collectionRef := by
  unfold changeSourceViaRef
  by_cases h : samePath s.documentRef ref = true <;> simp [h]
  exact (applySourceBranch_proj _ _).2.2.1

theorem changeSourceViaId_collRef (s : DocState T) (i : Option String) :
    (changeSourceViaId s i).1.collectionRef = s.collectionRef := by
  unfold changeSourceViaId
  by_cases h1 : i = some (docId s)
  · simp [h1]
  · by_cases h2 : (idTruthy i && s.collectionRef.isNone) = true <;> simp [h1, h2]
    · unfold handleError
      by_cases hcb : s.hasErrorCallback <;> simp [hcb]
    · exact (applySourceBranch_proj _ _).2.2.1

theorem changeSourceViaRef_main_docRef (s : DocState T) (r : DocRef)
    (h : samePath s.documentRef (some r) = false) :
    (changeSourceViaRef s (some r)).1.documentRef = some r := by
  unfold changeSourceViaRef
  simp [h]
  exact ((applySourceBranch_proj _ _).2.1).trans rfl

theorem changeSourceViaId_post (s : DocState T) (d : String) (hd : d ≠ "") :
    docId (changeSourceViaId s (some d)).1 = d
    ∨ ((changeSourceViaId s (some d)).1 = s ∧ s.collectionRef = none) := by
  by_cases h1 : some d = some (docId s)
  · left
    unfold changeSourceViaId
    rw [if_pos h1]
    exact (Option.some_inj.mp h1).symm
  · cases hc : s.collectionRef with
    | none =>
      right
      have hcond : (idTruthy (some d) && s.collectionRef.isNone) = true := by
        simp [idTruthy, hd, hc]
      refine ⟨?_, rfl⟩
      unfold changeSourceViaId
      rw [if_neg h1, if_pos hcond]
      unfold handleError
      by_cases hcb : s.hasErrorCallback = true
      · rw [if_pos hcb]
      · rw [if_neg hcb]
    | some c =>
      left
      have hcond : ¬((idTruthy (some d) && s.collectionRef.isNone) = true) := by
        simp [idTruthy, hd, hc]
      unfold changeSourceViaId
      rw [if_neg h1, if_neg hcond]
      simp only [hc]
      rw [if_neg hd]
      unfold docId
      rw [(applySourceBranch_proj _ _).2.1]
      rfl

end ObservableDocument

namespace ObservableDocument

variable {T : Type}

theorem changeSourceViaRef_noop (s : DocState T) (r : DocRef)
    (h : samePath s.documentRef (some r) = true) :
    changeSourceViaRef s (some r) = (s, [], Except.ok ()) := by
  unfold changeSourceViaRef
  rw [if_pos h]

theorem changeSourceViaId_noop (s : DocState T) (i : Option String)
    (h : i = some (docId s)) :
    changeSourceViaId s i = (s, [], Except.ok ()) := by
  unfold changeSourceViaId
  rw [if_pos h]

theorem subsCount_changeSourceViaRef (s : DocState T) (ref : Option DocRef) :
    countDocSubs (changeSourceViaRef s ref).2.1 ≤ 1 := by
  unfold changeSourceViaRef
  by_cases h : samePath s.documentRef ref = true
  · rw [if_pos h]
    simp [countDocSubs]
  · rw [if_neg h]
    exact subsCount_applySourceBranch_le _ _

theorem subsCount_changeSourceViaId (s : DocState T) (i : Option String) :
    countDocSubs (changeSourceViaId s i).2.1 ≤ 1 := by
  unfold changeSourceViaId
  by_cases h1 : i = some (docId s)
  · rw [if_pos h1]
    simp [countDocSubs]
  · rw [if_neg h1]
    by_cases h2 : (idTruthy i && s.collectionRef.isNone) = true
    · rw [if_pos h2]
      exact Nat.le_of_eq (subsCount_handleError s _) |>.trans (Nat.le_succ 0)
    · rw [if_neg h2]
      exact subsCount_applySourceBranch_le _ _

theorem subsCount_changeSourceViaId_none (s : DocState T) :
    countDocSubs (changeSourceViaId s none).2.1 = 0 := by
  unfold changeSourceViaId
  rw [if_neg (by simp : ¬((none : Option String) = some (docId s)))]
  rw [if_neg (by simp [idTruthy] : ¬((idTruthy none && s.collectionRef.isNone) = true))]
  exact subsCount_applySourceBranch_false _

theorem subsCount_changeSourceViaId_empty (s : DocState T) :
    countDocSubs (changeSourceViaId s (some "")).2.1 = 0 := by
  unfold changeSourceViaId
  by_cases h1 : (some "" : Option String) = some (docId s)
  · rw [if_pos h1]
    simp [countDocSubs]
  · rw [if_neg h1]
    rw [if_neg (by simp [idTruthy] : ¬((idTruthy (some "") && s.collectionRef.isNone) = true))]
    cases hc : s.collectionRef with
    | none =>
      simp only [hc]
      exact subsCount_applySourceBranch_false _
    | some c =>
      simp only [hc, ite_true]
      exact subsCount_applySourceBranch_false _

theorem changeSourceViaRef_second_noop (s : DocState T) (r : DocRef) :
    changeSourceViaRef (changeSourceViaRef s (some r)).1 (some r)
      = ((changeSourceViaRef s (some r)).1, [], Except.ok ()) := by
  by_cases h : samePath s.documentRef (some r) = true
  · have h0 := changeSourceViaRef_noop s r h
    rw [h0]
    exact changeSourceViaRef_noop s r h
  · have hdr := changeSourceViaRef_main_docRef s r (by simpa using h)
    exact changeSourceViaRef_noop _ r (by simp [samePath, hdr])

theorem changeSourceViaId_second_noop (s : DocState T) (d : String)
    (hd : d ≠ "") (hc : s.collectionRef.isSome = true) :
    changeSourceViaId (changeSourceViaId s (some d)).1 (some d)
      = ((changeSourceViaId s (some d)).1, [], Except.ok ()) := by
  rcases changeSourceViaId_post s d hd with hpost | ⟨_, hnone⟩
  · exact changeSourceViaId_noop _ (some d) (by rw [hpost])
  · rw [hnone] at hc
    simp at hc

theorem subsCount_changeSourceViaId_second (s : DocState T) (d : String)
    (hd : d ≠ "") :
    countDocSubs (changeSourceViaId (changeSourceViaId s (some d)).1 (some d)).2.1 = 0 := by
  rcases changeSourceViaId_post s d hd with hpost | ⟨heq, hnone⟩
  · rw [changeSourceViaId_noop _ (some d) (by rw [hpost])]
    simp [countDocSubs]
  · rw [heq]
    by_cases h1 : (some d : Option String) = some (docId s)
    · rw [changeSourceViaId_noop s (some d) h1]
      simp [countDocSubs]
    · unfold changeSourceViaId
      rw [if_neg h1]
      rw [if_pos (by simp [idTruthy, hd, hnone])]
      exact subsCount_handleError s _

end ObservableDocument

/-- **C3, counterexample.**  The claim (P1) states that two successive
`attachTo(L)` calls with no intervening source change produce exactly one
listener (re)subscription.  On the code, an observer that is not currently
observed subscribes nothing at all on `attachTo`: the two calls together
issue zero subscriptions, not one. -/
theorem C3_counterexample :
    countDocSubs
      ((ObservableDocument.attachTo (ObservableDocument.construct (T := Nat) none).1
          (some (Sum.inr ⟨"books", "b1"⟩))).2.1
        ++ (ObservableDocument.attachTo
              (ObservableDocument.attachTo (ObservableDocument.construct (T := Nat) none).1
                (some (Sum.inr ⟨"books", "b1"⟩))).1
              (some (Sum.inr ⟨"books", "b1"⟩))).2.1) = 0
    ∧ countDocSubs
      ((ObservableDocument.attachTo (ObservableDocument.construct (T := Nat) none).1
          (some (Sum.inr ⟨"books", "b1"⟩))).2.1
        ++ (ObservableDocument.attachTo
              (ObservableDocument.attachTo (ObservableDocument.construct (T := Nat) none).1
                (some (Sum.inr ⟨"books", "b1"⟩))).1
              (some (Sum.inr ⟨"books", "b1"⟩))).2.1) ≠ 1 := by
  exact ⟨rfl, by decide⟩

/-- **C3, amended.**  `attachTo` is idempotent in the following senses:
attaching a document reference whose path equals the bound one, or the
currently bound document id, is a complete no-op (no promise reset, no
listener churn, no data clearing, no loading change, no events); the second
of two successive `attachTo(L)` calls is a complete no-op whenever `L` is a
document reference, or a non-empty id while a parent collection is known; and
for every locator shape the second call issues zero store subscriptions while
a single call issues at most one — hence two successive calls never issue two
subscriptions (they issue exactly one only when the observer is currently
observed and the locator newly binds a source). -/
theorem C3_amended (T : Type) :
    (∀ (s : DocState T) (dr r : DocRef), s.documentRef = some dr → dr.path = r.path →
      ObservableDocument.attachTo s (some (Sum.inr r)) = (s, [], Except.ok ()))
    ∧ (∀ s : DocState T,
      ObservableDocument.attachTo s (some (Sum.inl (ObservableDocument.docId s)))
        = (s, [], Except.ok ()))
    ∧ (∀ (s : DocState T) (r : DocRef),
      ObservableDocument.attachTo
          (ObservableDocument.attachTo s (some (Sum.inr r))).1 (some (Sum.inr r))
        = ((ObservableDocument.attachTo s (some (Sum.inr r))).1, [], Except.ok ()))
    ∧ (∀ (s : DocState T) (d : String), d ≠ "" → s.collectionRef.isSome = true →
      ObservableDocument.attachTo
          (ObservableDocument.attachTo s (some (Sum.inl d))).1 (some (Sum.inl d))
        = ((ObservableDocument.attachTo s (some (Sum.inl d))).1, [], Except.ok ()))
    ∧ (∀ (s : DocState T) (arg : Option (Sum String DocRef)),
      countDocSubs
        (ObservableDocument.attachTo (ObservableDocument.attachTo s arg).1 arg).2.1 = 0)
    ∧ (∀ (s : DocState T) (arg : Option (Sum String DocRef)),
      countDocSubs (ObservableDocument.attachTo s arg).2.1 ≤ 1) := by
  refine ⟨?_, ?_, ?_, ?_, ?_, ?_⟩
  · intro s dr r h1 h2
    exact ObservableDocument.changeSourceViaRef_noop s r (by simp [ObservableDocument.samePath, h1, h2])
  · intro s
    exact ObservableDocument.changeSourceViaId_noop s _ rfl
  · intro s r
    exact ObservableDocument.changeSourceViaRef_second_noop s r
  · intro s d hd hc
    exact ObservableDocument.changeSourceViaId_second_noop s d hd hc
  · intro s arg
    match arg with
    | none =>
      exact ObservableDocument.subsCount_changeSourceViaId_none _
    | some (Sum.inl d) =>
      by_cases hd : d = ""
      · subst hd
        exact ObservableDocument.subsCount_changeSourceViaId_empty _
      · exact ObservableDocument.subsCount_changeSourceViaId_second s d hd
    | some (Sum.inr r) =>
      show countDocSubs
        (ObservableDocument.changeSourceViaRef
          (ObservableDocument.changeSourceViaRef s (some r)).1 (some r)).2.1 = 0
      rw [ObservableDocument.changeSourceViaRef_second_noop s r]
      rfl
  · intro s arg
    match arg with
    | none => exact ObservableDocument.subsCount_changeSourceViaId s none
    | some (Sum.inl d) => exact ObservableDocument.subsCount_changeSourceViaId s (some d)
    | some (Sum.inr r) => exact ObservableDocument.subsCount_changeSourceViaRef s (some r)

/-- **C3, witness.**  The amended theorem applied to concrete observers: a
redundant by-ref attach on an observer already bound to the same path, a
redundant by-id attach, and the double-attach no-op on a collection-parented
observer. -/
theorem C3_witness :
    ObservableDocument.attachTo
        (ObservableDocument.construct (T := Nat) (some (Sum.inl ⟨"books", "b1"⟩))).1
        (some (Sum.inr ⟨"books", "b1"⟩))
      = ((ObservableDocument.construct (T := Nat) (some (Sum.inl ⟨"books", "b1"⟩))).1,
          [], Except.ok ())
    ∧ ObservableDocument.attachTo
        (ObservableDocument.attachTo
          (ObservableDocument.construct (T := Nat) (some (Sum.inr ⟨"books"⟩))).1
          (some (Sum.inl "b2"))).1
        (some (Sum.inl "b2"))
      = ((ObservableDocument.attachTo
          (ObservableDocument.construct (T := Nat) (some (Sum.inr ⟨"books"⟩))).1
          (some (Sum.inl "b2"))).1, [], Except.ok ()) := by
  constructor
  · exact (C3_amended Nat).1 _ ⟨"books", "b1"⟩ ⟨"books", "b1"⟩ rfl rfl
  · exact (C3_amended Nat).2.2.2.1 _ "b2" (by decide) rfl

/-- **C4.**  With a source bound (no first snapshot yet: `firedInitialFetch`
still false for this generation) and no live listener, `ready()` issues
exactly one one-shot fetch against the bound locator and returns the current
ready promise; a second `ready()` call before anything resolves issues no
further fetch, changes nothing, and returns the very same promise (hence all
returned promises resolve to the same value, and exactly one fetch is issued
for the generation). -/
theorem C4_theorem (T : Type) (s : DocState T) (r : DocRef) (p : Nat)
    (hl : s.onSnapshotUnsubscribeFn = none)
    (hr : s.documentRef = some r)
    (hf : s.firedInitialFetch = false)
    (hp : s.readyPromise = some p) :
    (ObservableDocument.ready s).2.1 = [DocEvent.fetch r.path s.nextFetchId]
    ∧ (ObservableDocument.ready s).2.2 = Except.ok p
    ∧ (ObservableDocument.ready (ObservableDocument.ready s).1).2.1 = []
    ∧ (ObservableDocument.ready (ObservableDocument.ready s).1).2.2 = Except.ok p
    ∧ (ObservableDocument.ready (ObservableDocument.ready s).1).1
        = (ObservableDocument.ready s).1
    ∧ (ObservableDocument.ready s).1.promises = s.promises := by
  refine ⟨?_, ?_, ?_, ?_, ?_, ?_⟩ <;>
    simp [ObservableDocument.ready, ObservableDocument.fetchInitialData, hl, hr, hf, hp]

/-- **C4, witness.**  The theorem applied to an observer constructed from a
document reference, before any snapshot. -/
theorem C4_witness :
    (ObservableDocument.ready
      (ObservableDocument.construct (T := Nat) (some (Sum.inl ⟨"books", "b1"⟩))).1).2.1
      = [DocEvent.fetch (DocRef.path ⟨"books", "b1"⟩) 0]
    ∧ (ObservableDocument.ready
        (ObservableDocument.ready
          (ObservableDocument.construct (T := Nat) (some (Sum.inl ⟨"books", "b1"⟩))).1).1).2.2
      = Except.ok 0 := by
  constructor
  · exact (C4_theorem Nat _ ⟨"books", "b1"⟩ 0 rfl rfl rfl rfl).1
  · exact (C4_theorem Nat _ ⟨"books", "b1"⟩ 0 rfl rfl rfl rfl).2.2.2.1

/-- **C7.**  On every snapshot handled by the document observer, the `onData`
callback is invoked only when the snapshot reports existence, and strictly
before the ready promise is resolved (with the now-current data) and before
`isLoading` is set to false; one-shot fetch resolutions and live listener
deliveries both route through this same handler. -/
theorem C7_theorem (T : Type) (s : DocState T) (i : Nat) (snap : Option T)
    (hres : s.readyResolveFn = some i) :
    (ObservableDocument.handleSnapshot s snap).2.1
      = ObservableDocument.dataCallbackEvents snap s.hasDataCallback
        ++ [DocEvent.resolveReady i snap, DocEvent.loadingSet false]
    ∧ (∀ d, ObservableDocument.dataCallbackEvents snap s.hasDataCallback
        = [DocEvent.dataCallback d] ↔ (snap = some d ∧ s.hasDataCallback = true))
    ∧ (ObservableDocument.dataCallbackEvents snap s.hasDataCallback = []
        ↔ (snap = none ∨ s.hasDataCallback = false))
    ∧ (∀ fid, fid ∈ s.pendingFetches →
        ObservableDocument.fetchResolve s fid snap
          = ObservableDocument.handleSnapshot
              { s with pendingFetches := s.pendingFetches.erase fid } snap)
    ∧ (∀ sub, s.onSnapshotUnsubscribeFn = some sub →
        ObservableDocument.listenSnap s sub snap
          = ObservableDocument.handleSnapshot s snap) := by
  refine ⟨?_, ?_, ?_, ?_, ?_⟩
  · cases snap <;> cases hcb : s.hasDataCallback <;>
      simp [ObservableDocument.handleSnapshot, ObservableDocument.changeLoadingState,
        ObservableDocument.changeReady, ObservableDocument.dataCallbackEvents, hres, hcb]
  · intro d
    cases snap <;> cases hcb : s.hasDataCallback <;>
      simp [ObservableDocument.dataCallbackEvents, hcb]
  · cases snap <;> cases hcb : s.hasDataCallback <;>
      simp [ObservableDocument.dataCallbackEvents, hcb]
  · intro fid hf
    unfold ObservableDocument.fetchResolve
    rw [if_pos hf]
  · intro sub hs
    unfold ObservableDocument.listenSnap
    rw [if_pos hs]

/-- **C7, witness.**  The theorem applied to an observer with a data callback
registered, receiving an existing snapshot: the callback event precedes the
resolve and loading-off events. -/
theorem C7_witness :
    (ObservableDocument.handleSnapshot
      (ObservableDocument.setOnData
        (ObservableDocument.construct (T := Nat) (some (Sum.inl ⟨"books", "b1"⟩))).1)
      (some 42)).2.1
      = [DocEvent.dataCallback 42, DocEvent.resolveReady 0 (some 42),
          DocEvent.loadingSet false] := by
  exact (C7_theorem Nat _ 0 (some 42) rfl).1

/-- **C8.**  Every error raised inside an observer is routed to the
registered error callback when present and thrown/rejected otherwise, with
nothing silently dropped: (1) a one-shot fetch rejection, (2) a live-listener
error, (3) the configuration error of `attachTo(id)` with no known parent
collection — which additionally leaves the observer's state (in particular
its bound source) completely unchanged — and (4) `add()` on a collection
with no bound reference, whose returned promise is rejected even when the
callback was also invoked. -/
theorem C8_theorem (T : Type) :
    (∀ (s : DocState T) (fid : Nat) (msg : String), fid ∈ s.pendingFetches →
      ObservableDocument.fetchReject s fid msg
        = ({ s with pendingFetches := s.pendingFetches.erase fid },
            if s.hasErrorCallback = true
              then [DocEvent.errorCallback ("Fetch initial data failed: " ++ msg)] else [],
            if s.hasErrorCallback = true then Except.ok ()
              else Except.error (Err.thrown ("Fetch initial data failed: " ++ msg))))
    ∧ (∀ (s : DocState T) (sub : Nat) (msg : String),
        s.onSnapshotUnsubscribeFn = some sub →
      ObservableDocument.listenError s sub msg
        = (s, if s.hasErrorCallback = true then [DocEvent.errorCallback msg] else [],
            if s.hasErrorCallback = true then Except.ok ()
              else Except.error (Err.thrown msg)))
    ∧ (∀ (s : DocState T) (d : String), d ≠ "" → some d ≠ some (ObservableDocument.docId s) →
        s.collectionRef = none →
      ObservableDocument.attachTo s (some (Sum.inl d))
        = (s,
            if s.hasErrorCallback = true
              then [DocEvent.errorCallback
                "Can not change source via id if there is no known collection reference"]
              else [],
            if s.hasErrorCallback = true then Except.ok ()
              else Except.error (Err.thrown
                "Can not change source via id if there is no known collection reference")))
    ∧ (∀ (s : CollState T) (d : T), s.collectionRef = none →
      ObservableCollection.add s d
        = (s,
            if s.hasErrorCallback = true
              then [CollEvent.errorCallback
                "Can not add a document to a collection that has no ref"] else [],
            Except.error (Err.thrown
              "Can not add a document to a collection that has no ref"))) := by
  refine ⟨?_, ?_, ?_, ?_⟩
  · intro s fid msg hf
    unfold ObservableDocument.fetchReject
    rw [if_pos hf]
    unfold ObservableDocument.handleError
    by_cases hcb : s.hasErrorCallback = true <;> simp [hcb]
  · intro s sub msg hs
    unfold ObservableDocument.listenError
    rw [if_pos hs]
    unfold ObservableDocument.handleError
    by_cases hcb : s.hasErrorCallback = true <;> simp [hcb]
  · intro s d hd hne hcoll
    show ObservableDocument.changeSourceViaId s (some d) = _
    unfold ObservableDocument.changeSourceViaId
    rw [if_neg hne,
      if_pos (by simp [ObservableDocument.idTruthy, hd, hcoll] :
        (ObservableDocument.idTruthy (some d) && s.collectionRef.isNone) = true)]
    unfold ObservableDocument.handleError
    by_cases hcb : s.hasErrorCallback = true <;> simp [hcb]
  · intro s d hcoll
    unfold ObservableCollection.add
    rw [hcoll]
    unfold ObservableCollection.handleError
    by_cases hcb : s.hasErrorCallback = true <;> simp [hcb]

/-- **C8, witness.**  The theorem applied to concrete observers: a rejected
fetch with no callback registered is thrown, the attach-by-id configuration
error on a source-less observer is thrown with the state unchanged, and `add`
on an unbound collection rejects. -/
theorem C8_witness :
    (ObservableDocument.fetchReject
        (ObservableDocument.ready
          (ObservableDocument.construct (T := Nat) (some (Sum.inl ⟨"books", "b1"⟩))).1).1
        0 "boom").2.2
      = Except.error (Err.thrown "Fetch initial data failed: boom")
    ∧ ObservableDocument.attachTo (ObservableDocument.construct (T := Nat) none).1
        (some (Sum.inl "x"))
      = ((ObservableDocument.construct (T := Nat) none).1, [],
          Except.error (Err.thrown
            "Can not change source via id if there is no known collection reference"))
    ∧ (ObservableCollection.add
        (ObservableCollection.construct (T := Nat) none none false).1 5).2.2
      = Except.error (Err.thrown "Can not add a document to a collection that has no ref") := by
  refine ⟨?_, ?_, ?_⟩
  · exact (congrArg (fun t => t.2.2) ((C8_theorem Nat).1
      (ObservableDocument.ready
        (ObservableDocument.construct (T := Nat) (some (Sum.inl ⟨"books", "b1"⟩))).1).1
      0 "boom" (by decide))).trans (by rfl)
  · exact ((C8_theorem Nat).2.2.1 (ObservableDocument.construct (T := Nat) none).1
      "x" (by decide) (by decide) rfl).trans (by rfl)
  · exact (congrArg (fun t => t.2.2) ((C8_theorem Nat).2.2.2
      (ObservableCollection.construct (T := Nat) none none false).1 5 rfl)).trans (by rfl)

/-- **C5.**  Evaluation of the code at the failing input for claim C5.  A
collection observer bound to collection "A" with no query transform, under
observation (live listener, subscription id 0), with one document delivered.
Switching the source to collection "B" does NOT clear the document list (the
claim requires documents cleared immediately), emits no unsubscribe and no
resubscription (the `sourcePath` identity token is only regenerated when a
query-creator function is registered, so `updateListeners` treats the old
listener as still valid), leaves subscription 0 — A's subscription — as the
current listener, and a subsequent snapshot from A's subscription is still
applied to the now-B-bound observer.  Only `isLoading = true` and the fresh
ready promise match the claim.  The document observer clears `_data` on the
same transition, so the collection behaviour is the slip. -/
theorem C5_theorem :
    ((ObservableCollection.listenSnap
        (ObservableCollection.resumeUpdates
          (ObservableCollection.construct (T := Nat) (some ⟨"A"⟩) none false).1).1
        0 [⟨"d1", ⟨"A", "d1"⟩, 7⟩]).1.docs = [⟨"d1", ⟨"A", "d1"⟩, 7⟩])
    ∧ ((ObservableCollection.attachTo
        (ObservableCollection.listenSnap
          (ObservableCollection.resumeUpdates
            (ObservableCollection.construct (T := Nat) (some ⟨"A"⟩) none false).1).1
          0 [⟨"d1", ⟨"A", "d1"⟩, 7⟩]).1
        (some ⟨"B"⟩)).1.docs = [⟨"d1", ⟨"A", "d1"⟩, 7⟩])
    ∧ ((ObservableCollection.attachTo
        (ObservableCollection.listenSnap
          (ObservableCollection.resumeUpdates
            (ObservableCollection.construct (T := Nat) (some ⟨"A"⟩) none false).1).1
          0 [⟨"d1", ⟨"A", "d1"⟩, 7⟩]).1
        (some ⟨"B"⟩)).1.isLoading = true)
    ∧ ((ObservableCollection.attachTo
        (ObservableCollection.listenSnap
          (ObservableCollection.resumeUpdates
            (ObservableCollection.construct (T := Nat) (some ⟨"A"⟩) none false).1).1
          0 [⟨"d1", ⟨"A", "d1"⟩, 7⟩]).1
        (some ⟨"B"⟩)).1.onSnapshotUnsubscribeFn = some 0)
    ∧ ((ObservableCollection.attachTo
        (ObservableCollection.listenSnap
          (ObservableCollection.resumeUpdates
            (ObservableCollection.construct (T := Nat) (some ⟨"A"⟩) none false).1).1
          0 [⟨"d1", ⟨"A", "d1"⟩, 7⟩]).1
        (some ⟨"B"⟩)).2.1 = [CollEvent.loadingSet true])
    ∧ ((ObservableCollection.listenSnap
        (ObservableCollection.attachTo
          (ObservableCollection.listenSnap
            (ObservableCollection.resumeUpdates
              (ObservableCollection.construct (T := Nat) (some ⟨"A"⟩) none false).1).1
            0 [⟨"d1", ⟨"A", "d1"⟩, 7⟩]).1
          (some ⟨"B"⟩)).1
        0 [⟨"stale", ⟨"A", "stale"⟩, 9⟩]).1.docs = [⟨"stale", ⟨"A", "stale"⟩, 9⟩]) :=
  ⟨rfl, rfl, rfl, rfl, rfl, rfl⟩

/-! ## Store-side subscription tracking lemmas (document observer) -/

namespace ObservableDocument

variable {T : Type}

theorem docSubsFrom_append (a : List Nat) (e1 e2 : List (DocEvent T)) :
    docSubsFrom a (e1 ++ e2) = docSubsFrom (docSubsFrom a e1) e2 :=
  List.foldl_append _ _ _ _

theorem docSubsFrom_changeReady (a : List Nat) (s : DocState T) (b : Bool) :
    docSubsFrom a (changeReady s b).2.1 = a := by
  cases b <;> simp [changeReady, docSubsFrom] <;>
    cases h : s.readyResolveFn <;> simp [h, docSubStep]

theorem docSubsFrom_changeLoadingState (a : List Nat) (s : DocState T) (b : Bool) :
    docSubsFrom a (changeLoadingState s b).2.1 = a := by
  have h := docSubsFrom_changeReady a s (!b)
  unfold changeLoadingState
  cases hr : changeReady s (!b) with
  | mk s1 rest =>
    rw [hr] at h
    simp only at h
    cases rest with
    | mk ev r =>
      cases r <;> simp [docSubsFrom, docSubStep] at h ⊢ <;>
        simpa [docSubsFrom, List.foldl_append, docSubStep] using h

theorem docSubsFrom_handleError (a : List Nat) (s : DocState T) (msg : String) :
    docSubsFrom a (handleError s msg).2.1 = a := by
  by_cases h : s.hasErrorCallback <;> simp [handleError, h, docSubsFrom, docSubStep]

theorem docSubsFrom_dataCallbackEvents (a : List Nat) (snap : Option T) (cb : Bool) :
    docSubsFrom a (dataCallbackEvents snap cb) = a := by
  cases snap <;> cases cb <;> simp [dataCallbackEvents, docSubsFrom, docSubStep]

theorem docSubsFrom_handleSnapshot (a : List Nat) (s : DocState T) (snap : Option T) :
    docSubsFrom a (handleSnapshot s snap).2.1 = a := by
  unfold handleSnapshot
  have h := docSubsFrom_changeLoadingState a { s with _data := snap } false
  cases hr : changeLoadingState { s with _data := snap } false with
  | mk s2 rest =>
    rw [hr] at h
    cases rest with
    | mk ev r =>
      simp only at h ⊢
      rw [docSubsFrom_append, docSubsFrom_dataCallbackEvents]
      exact h

theorem handleSnapshot_handle (s : DocState T) (snap : Option T) :
    (handleSnapshot s snap).1.onSnapshotUnsubscribeFn = s.onSnapshotUnsubscribeFn := by
  have h := (changeLoadingState_proj { s with _data := snap } false).2.2.2.2.1
  unfold handleSnapshot
  cases hr : changeLoadingState { s with _data := snap } false with
  | mk s2 rest =>
    rw [hr] at h
    exact h

theorem handleError_state (s : DocState T) (msg : String) :
    (handleError s msg).1 = s := by
  by_cases h : s.hasErrorCallback <;> simp [handleError, h]

theorem updateListeners_subs (s : DocState T) (b : Bool) :
    docSubsFrom s.onSnapshotUnsubscribeFn.toList (updateListeners s b).2
      = (updateListeners s b).1.onSnapshotUnsubscribeFn.toList := by
  unfold updateListeners
  cases h : s.onSnapshotUnsubscribeFn with
  | none =>
    cases b with
    | false => simp [h, docSubsFrom]
    | true =>
      cases hr : s.documentRef <;> simp [h, hr, docSubsFrom, docSubStep]
  | some k =>
    cases b with
    | false => simp [docSubsFrom, docSubStep]
    | true =>
      by_cases hsp : s.sourcePath = s.listenerSourcePath
      · simp [hsp, docSubsFrom, h]
      · cases hr : s.documentRef <;> simp [hsp, hr, docSubsFrom, docSubStep]

theorem applySourceBranch_subs (s : DocState T) (b : Bool) :
    docSubsFrom s.onSnapshotUnsubscribeFn.toList (applySourceBranch s b).2.1
      = (applySourceBranch s b).1.onSnapshotUnsubscribeFn.toList := by
  unfold applySourceBranch
  by_cases ho : s.observedCount > 0 <;> simp [ho]
  · have h1 := updateListeners_subs s b
    have h2 := docSubsFrom_changeLoadingState
      (updateListeners s b).1.onSnapshotUnsubscribeFn.toList (updateListeners s b).1 b
    have h3 := (changeLoadingState_proj (updateListeners s b).1 b).2.2.2.2.1
    cases hc : changeLoadingState (updateListeners s b).1 b with
    | mk s4 rest =>
      rw [hc] at h2 h3
      simp only at h2 h3 ⊢
      cases rest with
      | mk ev r =>
        rw [docSubsFrom_append, h1]
        simp only at h2
        rw [h2, h3]
  · have h2 := docSubsFrom_changeLoadingState s.onSnapshotUnsubscribeFn.toList s b
    have h3 := (changeLoadingState_proj s b).2.2.2.2.1
    cases hc : changeLoadingState s b with
    | mk s4 rest =>
      rw [hc] at h2 h3
      simp only at h2 h3 ⊢
      cases rest with
      | mk ev r =>
        rw [h2, h3]

end ObservableDocument

namespace ObservableDocument

variable {T : Type}

theorem applySourceBranch_subs2 (s0 s : DocState T) (b : Bool)
    (hh : s.onSnapshotUnsubscribeFn = s0.onSnapshotUnsubscribeFn) :
    docSubsFrom s0.onSnapshotUnsubscribeFn.toList (applySourceBranch s b).2.1
      = (applySourceBranch s b).1.onSnapshotUnsubscribeFn.toList := by
  rw [← hh]
  exact applySourceBranch_subs s b

theorem changeSourceViaRef_subs (s : DocState T) (ref : Option DocRef) :
    docSubsFrom s.onSnapshotUnsubscribeFn.toList (changeSourceViaRef s ref).2.1
      = (changeSourceViaRef s ref).1.onSnapshotUnsubscribeFn.toList := by
  unfold changeSourceViaRef
  by_cases h : samePath s.documentRef ref = true
  · rw [if_pos h]
    rfl
  · rw [if_neg h]
    dsimp only
    exact applySourceBranch_subs2 s _ _ rfl

theorem changeSourceViaId_subs (s : DocState T) (i : Option String) :
    docSubsFrom s.onSnapshotUnsubscribeFn.toList (changeSourceViaId s i).2.1
      = (changeSourceViaId s i).1.onSnapshotUnsubscribeFn.toList := by
  unfold changeSourceViaId
  by_cases h1 : i = some (docId s)
  · rw [if_pos h1]
    rfl
  · rw [if_neg h1]
    by_cases h2 : (idTruthy i && s.collectionRef.isNone) = true
    · rw [if_pos h2]
      rw [docSubsFrom_handleError, handleError_state]
    · rw [if_neg h2]
      dsimp only
      exact applySourceBranch_subs2 s _ _ rfl

theorem ready_subs (s : DocState T) :
    docSubsFrom s.onSnapshotUnsubscribeFn.toList (ready s).2.1
      = (ready s).1.onSnapshotUnsubscribeFn.toList := by
  unfold ready fetchInitialData
  by_cases hl : s.onSnapshotUnsubscribeFn.isSome
  · simp [hl]
    cases hp : s.readyPromise <;> simp [docSubsFrom]
  · simp [hl]
    cases hr : s.documentRef with
    | none =>
      simp
      cases hp : s.readyPromise <;> simp [docSubsFrom]
    | some r =>
      by_cases hf : s.firedInitialFetch = true <;> simp [hf]
      · cases hp : s.readyPromise <;> simp [docSubsFrom]
      · cases hp : s.readyPromise <;> simp [docSubsFrom, docSubStep]

theorem updateListeners_subs2 (s0 s : DocState T) (b : Bool)
    (hh : s.onSnapshotUnsubscribeFn = s0.onSnapshotUnsubscribeFn) :
    docSubsFrom s0.onSnapshotUnsubscribeFn.toList (updateListeners s b).2
      = (updateListeners s b).1.onSnapshotUnsubscribeFn.toList := by
  rw [← hh]
  exact updateListeners_subs s b

theorem resumeUpdates_subs (s : DocState T) :
    docSubsFrom s.onSnapshotUnsubscribeFn.toList (resumeUpdates s).2
      = (resumeUpdates s).1.onSnapshotUnsubscribeFn.toList := by
  unfold resumeUpdates
  by_cases h : s.observedCount + 1 = 1 <;> simp [h]
  · exact updateListeners_subs2 s _ true rfl
  · rfl

theorem suspendUpdates_subs (s : DocState T) :
    docSubsFrom s.onSnapshotUnsubscribeFn.toList (suspendUpdates s).2
      = (suspendUpdates s).1.onSnapshotUnsubscribeFn.toList := by
  unfold suspendUpdates
  by_cases h : s.observedCount - 1 = 0 <;> simp [h]
  · exact updateListeners_subs2 s _ false rfl
  · rfl

theorem docStep_subs (s : DocState T) (op : DocOp T) :
    docSubsFrom s.onSnapshotUnsubscribeFn.toList (docStep s op).2.1
      = (docStep s op).1.onSnapshotUnsubscribeFn.toList := by
  cases op with
  | attach arg =>
    match arg with
    | none => exact changeSourceViaId_subs s none
    | some (Sum.inl d) => exact changeSourceViaId_subs s (some d)
    | some (Sum.inr r) => exact changeSourceViaRef_subs s (some r)
  | readyOp =>
    have h := ready_subs s
    unfold docStep
    cases hr : ready s with
    | mk s1 rest =>
      rw [hr] at h
      cases rest with
      | mk ev r => exact h
  | resume =>
    have h := resumeUpdates_subs s
    unfold docStep
    cases hr : resumeUpdates s with
    | mk s1 ev =>
      rw [hr] at h
      exact h
  | suspend =>
    have h := suspendUpdates_subs s
    unfold docStep
    cases hr : suspendUpdates s with
    | mk s1 ev =>
      rw [hr] at h
      exact h
  | regOnError => rfl
  | regOnData => rfl
  | fetchOk fid snap =>
    dsimp only [docStep]
    unfold fetchResolve
    by_cases h : fid ∈ s.pendingFetches
    · rw [if_pos h]
      rw [docSubsFrom_handleSnapshot, handleSnapshot_handle]
    · rw [if_neg h]
      rfl
  | fetchErr fid msg =>
    dsimp only [docStep]
    unfold fetchReject
    by_cases h : fid ∈ s.pendingFetches
    · rw [if_pos h]
      rw [docSubsFrom_handleError, handleError_state]
    · rw [if_neg h]
      rfl
  | snapIn sub snap =>
    dsimp only [docStep]
    unfold listenSnap
    by_cases h : s.onSnapshotUnsubscribeFn = some sub
    · rw [if_pos h]
      rw [docSubsFrom_handleSnapshot, handleSnapshot_handle]
    · rw [if_neg h]
      rfl
  | errIn sub msg =>
    dsimp only [docStep]
    unfold listenError
    by_cases h : s.onSnapshotUnsubscribeFn = some sub
    · rw [if_pos h]
      rw [docSubsFrom_handleError, handleError_state]
    · rw [if_neg h]
      rfl

theorem construct_subs (source : Option (Sum DocRef CollRef)) :
    docSubsFrom [] (construct (T := T) source).2
      = (construct (T := T) source).1.onSnapshotUnsubscribeFn.toList := by
  match source with
  | none => rfl
  | some (Sum.inr c) => rfl
  | some (Sum.inl r) => rfl

theorem docReachable_subs {s : DocState T} {h : List (DocEvent T)}
    (hr : DocReachable s h) :
    docSubsFrom [] h = s.onSnapshotUnsubscribeFn.toList := by
  induction hr with
  | init source => exact construct_subs source
  | step op _ _ ih =>
    rw [docSubsFrom_append, ih]
    exact docStep_subs _ op

end ObservableDocument

/-! ## Collection-observer projection and subscription-tracking lemmas -/

namespace ObservableCollection

variable {T : Type}

theorem collChangeReady_proj (s : CollState T) (b : Bool) :
    (changeReady s b).1.docs = s.docs
    ∧ (changeReady s b).1.isLoading = s.isLoading
    ∧ (changeReady s b).1.collectionRef = s.collectionRef
    ∧ (changeReady s b).1._query = s._query
    ∧ (changeReady s b).1.readyResolveFn = s.readyResolveFn
    ∧ (changeReady s b).1.onSnapshotUnsubscribeFn = s.onSnapshotUnsubscribeFn
    ∧ (changeReady s b).1.observedCount = s.observedCount
    ∧ (changeReady s b).1.firedInitialFetch = s.firedInitialFetch
    ∧ (changeReady s b).1.sourcePath = s.sourcePath
    ∧ (changeReady s b).1.listenerSourcePath = s.listenerSourcePath
    ∧ (changeReady s b).1.hasErrorCallback = s.hasErrorCallback
    ∧ (changeReady s b).1.pendingFetches = s.pendingFetches
    ∧ (changeReady s b).1.nextFetchId = s.nextFetchId
    ∧ (changeReady s b).1.nextSubId = s.nextSubId := by
  cases b <;> simp [changeReady] <;> cases h : s.readyResolveFn <;> simp [h]

theorem collChangeLoadingState_proj (s : CollState T) (b : Bool) :
    (changeLoadingState s b).1.docs = s.docs
    ∧ (changeLoadingState s b).1.collectionRef = s.collectionRef
    ∧ (changeLoadingState s b).1._query = s._query
    ∧ (changeLoadingState s b).1.readyResolveFn = s.readyResolveFn
    ∧ (changeLoadingState s b).1.onSnapshotUnsubscribeFn = s.onSnapshotUnsubscribeFn
    ∧ (changeLoadingState s b).1.observedCount = s.observedCount
    ∧ (changeLoadingState s b).1.firedInitialFetch = s.firedInitialFetch
    ∧ (changeLoadingState s b).1.sourcePath = s.sourcePath
    ∧ (changeLoadingState s b).1.listenerSourcePath = s.listenerSourcePath
    ∧ (changeLoadingState s b).1.hasErrorCallback = s.hasErrorCallback
    ∧ (changeLoadingState s b).1.pendingFetches = s.pendingFetches
    ∧ (changeLoadingState s b).1.nextFetchId = s.nextFetchId
    ∧ (changeLoadingState s b).1.nextSubId = s.nextSubId := by
  have h := collChangeReady_proj s (!b)
  unfold changeLoadingState
  cases hr : changeReady s (!b) with
  | mk s1 rest =>
    rw [hr] at h
    simp only at h
    obtain ⟨c1, _, c3, c4, c5, c6, c7, c8, c9, c10, c11, c12, c13, c14⟩ := h
    cases rest with
    | mk ev r =>
      cases r <;> simp <;>
        exact ⟨c1, c3, c4, c5, c6, c7, c8, c9, c10, c11, c12, c13, c14⟩

theorem collHandleError_state (s : CollState T) (msg : String) :
    (handleError s msg).1 = s := by
  by_cases h : s.hasErrorCallback <;> simp [handleError, h]

theorem collSubsFrom_append (a : List Nat) (e1 e2 : List (CollEvent T)) :
    collSubsFrom a (e1 ++ e2) = collSubsFrom (collSubsFrom a e1) e2 :=
  List.foldl_append _ _ _ _

theorem collSubsFrom_changeReady (a : List Nat) (s : CollState T) (b : Bool) :
    collSubsFrom a (changeReady s b).2.1 = a := by
  cases b <;> simp [changeReady, collSubsFrom] <;>
    cases h : s.readyResolveFn <;> simp [h, collSubStep]

theorem collSubsFrom_changeLoadingState (a : List Nat) (s : CollState T) (b : Bool) :
    collSubsFrom a (changeLoadingState s b).2.1 = a := by
  have h := collSubsFrom_changeReady a s (!b)
  unfold changeLoadingState
  cases hr : changeReady s (!b) with
  | mk s1 rest =>
    rw [hr] at h
    simp only at h
    cases rest with
    | mk ev r =>
      cases r <;> simp [collSubsFrom, collSubStep] at h ⊢ <;>
        simpa [collSubsFrom, List.foldl_append, collSubStep] using h

theorem collSubsFrom_handleError (a : List Nat) (s : CollState T) (msg : String) :
    collSubsFrom a (handleError s msg).2.1 = a := by
  by_cases h : s.hasErrorCallback <;> simp [handleError, h, collSubsFrom, collSubStep]

theorem collSubsFrom_handleSnapshot (a : List Nat) (s : CollState T)
    (rows : List (CollDoc T)) :
    collSubsFrom a (handleSnapshot s rows).2.1 = a :=
  collSubsFrom_changeLoadingState a { s with docs := rows } false

theorem collHandleSnapshot_handle (s : CollState T) (rows : List (CollDoc T)) :
    (handleSnapshot s rows).1.onSnapshotUnsubscribeFn = s.onSnapshotUnsubscribeFn :=
  (collChangeLoadingState_proj { s with docs := rows } false).2.2.2.2.1

theorem collUpdateListeners_subs (s : CollState T) (b : Bool) :
    collSubsFrom s.onSnapshotUnsubscribeFn.toList (updateListeners s b).2
      = (updateListeners s b).1.onSnapshotUnsubscribeFn.toList := by
  unfold updateListeners
  cases hh : s.onSnapshotUnsubscribeFn with
  | none =>
    cases b with
    | false => simp [hh, collSubsFrom]
    | true =>
      cases hq : s._query <;> cases hc : s.collectionRef <;>
        simp [hh, hq, hc, collSubsFrom, collSubStep]
  | some k =>
    cases b with
    | false => simp [hh, collSubsFrom, collSubStep]
    | true =>
      by_cases hsp : (s.sourcePath == s.listenerSourcePath) = true
      · simp [hh, hsp, collSubsFrom]
      · cases hq : s._query <;> cases hc : s.collectionRef <;>
          simp [hh, hsp, hq, hc, collSubsFrom, collSubStep]

theorem collUpdateListeners_subs2 (s0 s : CollState T) (b : Bool)
    (hh : s.onSnapshotUnsubscribeFn = s0.onSnapshotUnsubscribeFn) :
    collSubsFrom s0.onSnapshotUnsubscribeFn.toList (updateListeners s b).2
      = (updateListeners s b).1.onSnapshotUnsubscribeFn.toList := by
  rw [← hh]
  exact collUpdateListeners_subs s b

end ObservableCollection

namespace ObservableCollection

variable {T : Type}

theorem applyLoadBranch_subs2 (s0 s : CollState T)
    (hh : s.onSnapshotUnsubscribeFn = s0.onSnapshotUnsubscribeFn) :
    collSubsFrom s0.onSnapshotUnsubscribeFn.toList (applyLoadBranch s).2.1
      = (applyLoadBranch s).1.onSnapshotUnsubscribeFn.toList := by
  unfold applyLoadBranch
  by_cases ho : s.observedCount > 0 <;> simp only [ho, ite_true, ite_false]
  · have h2 := collSubsFrom_changeLoadingState
      (updateListeners s true).1.onSnapshotUnsubscribeFn.toList (updateListeners s true).1 true
    have h3 := (collChangeLoadingState_proj (updateListeners s true).1 true).2.2.2.2.1
    cases hc : changeLoadingState (updateListeners s true).1 true with
    | mk s4 rest =>
      rw [hc] at h2 h3
      cases rest with
      | mk ev r =>
        simp only at h2 h3 ⊢
        rw [collSubsFrom_append, collUpdateListeners_subs2 s0 s true hh, h2, h3]
  · have h2 := collSubsFrom_changeLoadingState s0.onSnapshotUnsubscribeFn.toList s true
    have h3 := (collChangeLoadingState_proj s true).2.2.2.2.1
    cases hc : changeLoadingState s true with
    | mk s4 rest =>
      rw [hc] at h2 h3
      cases rest with
      | mk ev r =>
        simp only at h2 h3 ⊢
        rw [List.nil_append, h2, h3, hh]

theorem applyClearBranch_subs2 (s0 s : CollState T)
    (hh : s.onSnapshotUnsubscribeFn = s0.onSnapshotUnsubscribeFn) :
    collSubsFrom s0.onSnapshotUnsubscribeFn.toList (applyClearBranch s).2.1
      = (applyClearBranch s).1.onSnapshotUnsubscribeFn.toList := by
  unfold applyClearBranch
  by_cases ho : s.observedCount > 0 <;> simp only [ho, ite_true, ite_false]
  · have h2 := collSubsFrom_changeLoadingState
      (updateListeners s false).1.onSnapshotUnsubscribeFn.toList
      { (updateListeners s false).1 with docs := [] } false
    have h3 := (collChangeLoadingState_proj
      { (updateListeners s false).1 with docs := [] } false).2.2.2.2.1
    cases hc : changeLoadingState { (updateListeners s false).1 with docs := [] } false with
    | mk s4 rest =>
      rw [hc] at h2 h3
      cases rest with
      | mk ev r =>
        simp only at h2 h3 ⊢
        rw [collSubsFrom_append, collUpdateListeners_subs2 s0 s false hh, h2, h3]
  · have h2 := collSubsFrom_changeLoadingState s0.onSnapshotUnsubscribeFn.toList
      { s with docs := [] } false
    have h3 := (collChangeLoadingState_proj { s with docs := [] } false).2.2.2.2.1
    cases hc : changeLoadingState { s with docs := [] } false with
    | mk s4 rest =>
      rw [hc] at h2 h3
      cases rest with
      | mk ev r =>
        simp only at h2 h3 ⊢
        rw [List.nil_append, h2, h3, hh]

theorem changeSource_subs (s : CollState T) (newRef : Option CollRef) :
    collSubsFrom s.onSnapshotUnsubscribeFn.toList (changeSource s newRef).2.1
      = (changeSource s newRef).1.onSnapshotUnsubscribeFn.toList := by
  unfold changeSource
  cases hco : s.collectionRef with
  | none =>
    cases hcn : newRef with
    | none => rfl
    | some n =>
      try dsimp only
      cases hq : s.queryCreatorFn <;> exact applyLoadBranch_subs2 s _ rfl
  | some c =>
    cases hcn : newRef with
    | none =>
      try dsimp only
      exact applyClearBranch_subs2 s _ rfl
    | some n =>
      by_cases hp : (c.path == n.path) = true
      · simp only [hp, ite_true]
        rfl
      · simp only [hp, ite_false, Bool.false_eq_true]
        try dsimp only
        cases hq : s.queryCreatorFn <;> exact applyLoadBranch_subs2 s _ rfl

theorem setQuery_subs (s : CollState T) (qfn : Option (CollRef → Query)) :
    collSubsFrom s.onSnapshotUnsubscribeFn.toList (setQuery s qfn).2.1
      = (setQuery s qfn).1.onSnapshotUnsubscribeFn.toList := by
  unfold setQuery
  dsimp only
  split
  · rfl
  · split
    · rfl
    · split
      · exact applyLoadBranch_subs2 s _ rfl
      · exact applyClearBranch_subs2 s _ rfl

theorem collReady_subs (s : CollState T) :
    collSubsFrom s.onSnapshotUnsubscribeFn.toList (ready s).2.1
      = (ready s).1.onSnapshotUnsubscribeFn.toList := by
  unfold ready fetchInitialData
  by_cases hl : s.onSnapshotUnsubscribeFn.isSome <;> simp only [hl, ite_true, ite_false]
  · cases hp : s.readyPromise <;> simp [hp, collSubsFrom]
  · by_cases hf : s.firedInitialFetch = true <;> simp only [hf, ite_true, ite_false]
    · cases hp : s.readyPromise <;> simp [hp, collSubsFrom]
    · cases hco : s.collectionRef with
      | none =>
        dsimp only
        have h1 := collSubsFrom_handleError
          s.onSnapshotUnsubscribeFn.toList s
          "Can not fetch data without a collection reference"
        have h2 := collHandleError_state s "Can not fetch data without a collection reference"
        cases hr : handleError s "Can not fetch data without a collection reference" with
        | mk s1 rest =>
          rw [hr] at h1 h2
          simp only at h1 h2
          cases rest with
          | mk ev r =>
            cases r with
            | ok u => rw [h2]; cases hp : s.readyPromise <;> simpa [hp, collSubsFrom] using h1
            | error e => rw [h2]; simpa [collSubsFrom] using h1
      | some c =>
        cases hq : s._query <;>
          (try dsimp only
           cases hp : s.readyPromise <;> simp [hp, collSubsFrom, collSubStep])

theorem collResumeUpdates_subs (s : CollState T) :
    collSubsFrom s.onSnapshotUnsubscribeFn.toList (resumeUpdates s).2
      = (resumeUpdates s).1.onSnapshotUnsubscribeFn.toList := by
  unfold resumeUpdates
  by_cases h : s.observedCount + 1 = 1 <;> simp [h]
  · exact collUpdateListeners_subs2 s _ true rfl
  · rfl

theorem collSuspendUpdates_subs (s : CollState T) :
    collSubsFrom s.onSnapshotUnsubscribeFn.toList (suspendUpdates s).2
      = (suspendUpdates s).1.onSnapshotUnsubscribeFn.toList := by
  unfold suspendUpdates
  by_cases h : s.observedCount - 1 = 0 <;> simp [h]
  · exact collUpdateListeners_subs2 s _ false rfl
  · rfl

theorem add_subs (s : CollState T) (d : T) :
    collSubsFrom s.onSnapshotUnsubscribeFn.toList (add s d).2.1
      = (add s d).1.onSnapshotUnsubscribeFn.toList := by
  unfold add
  cases hco : s.collectionRef with
  | none =>
    have h1 := collSubsFrom_handleError
      s.onSnapshotUnsubscribeFn.toList s
      "Can not add a document to a collection that has no ref"
    have h2 := collHandleError_state s "Can not add a document to a collection that has no ref"
    cases hr : handleError s "Can not add a document to a collection that has no ref" with
    | mk s1 rest =>
      rw [hr] at h1 h2
      simp only at h1 h2
      cases rest with
      | mk ev r =>
        cases r <;> simp only <;> rw [h2] <;> exact h1
  | some c => simp [collSubsFrom, collSubStep]

theorem collStep_subs (s : CollState T) (op : CollOp T) :
    collSubsFrom s.onSnapshotUnsubscribeFn.toList (collStep s op).2.1
      = (collStep s op).1.onSnapshotUnsubscribeFn.toList := by
  cases op with
  | attach newRef => exact changeSource_subs s newRef
  | setQueryOp qfn => exact setQuery_subs s qfn
  | readyOp =>
    have h := collReady_subs s
    unfold collStep
    cases hr : ready s with
    | mk s1 rest =>
      rw [hr] at h
      cases rest with
      | mk ev r => exact h
  | addOp d => exact add_subs s d
  | resume =>
    have h := collResumeUpdates_subs s
    unfold collStep
    cases hr : resumeUpdates s with
    | mk s1 ev =>
      rw [hr] at h
      exact h
  | suspend =>
    have h := collSuspendUpdates_subs s
    unfold collStep
    cases hr : suspendUpdates s with
    | mk s1 ev =>
      rw [hr] at h
      exact h
  | regOnError => rfl
  | fetchOk fid rows =>
    dsimp only [collStep]
    unfold fetchResolve
    by_cases h : fid ∈ s.pendingFetches
    · rw [if_pos h]
      rw [collSubsFrom_handleSnapshot, collHandleSnapshot_handle]
    · rw [if_neg h]
      rfl
  | fetchErr fid msg =>
    dsimp only [collStep]
    unfold fetchReject
    by_cases h : fid ∈ s.pendingFetches
    · rw [if_pos h]
      rw [collSubsFrom_handleError, collHandleError_state]
    · rw [if_neg h]
      rfl
  | snapIn sub rows =>
    dsimp only [collStep]
    unfold listenSnap
    by_cases h : s.onSnapshotUnsubscribeFn = some sub
    · rw [if_pos h]
      by_cases hk : s.subSkip > 0
      · rw [if_pos hk]
        rfl
      · rw [if_neg hk]
        rw [collSubsFrom_handleSnapshot, collHandleSnapshot_handle]
    · rw [if_neg h]
      rfl
  | errIn sub msg =>
    dsimp only [collStep]
    unfold listenError
    by_cases h : s.onSnapshotUnsubscribeFn = some sub
    · rw [if_pos h]
      rw [collSubsFrom_handleError, collHandleError_state]
    · rw [if_neg h]
      rfl

theorem collConstruct_subs (ref : Option CollRef) (qfn : Option (CollRef → Query)) (ig : Bool) :
    collSubsFrom [] (construct (T := T) ref qfn ig).2
      = (construct (T := T) ref qfn ig).1.onSnapshotUnsubscribeFn.toList := by
  match ref, qfn with
  | none, none => rfl
  | none, some f => rfl
  | some c, none => rfl
  | some c, some f => rfl

theorem collReachable_subs {s : CollState T} {h : List (CollEvent T)}
    (hr : CollReachable s h) :
    collSubsFrom [] h = s.onSnapshotUnsubscribeFn.toList := by
  induction hr with
  | init ref qfn ig => exact collConstruct_subs ref qfn ig
  | step op _ _ ih =>
    rw [collSubsFrom_append, ih]
    exact collStep_subs _ op

end ObservableCollection

/-- **C6.**  Listener-handle invariants.  (a,b) For every reachable state of
either observer, the set of store-side live subscriptions (replaying the
event history) is exactly the observer's single optional handle — so at most
one live subscription exists at all times, and one exists iff the handle is
present.  (c,d) A request to listen while a listener exists whose recorded
source identity (`listenerSourcePath`) equals the current desired identity
(`sourcePath`) is a complete no-op.  (e,f) Every `updateListeners` step emits
one of: nothing, a teardown, a subscription, or a teardown strictly followed
by a subscription — never a subscribe before an unsubscribe. -/
theorem C6_theorem :
    (∀ (T : Type) (s : DocState T) (h : List (DocEvent T)),
      ObservableDocument.DocReachable s h →
      ObservableDocument.docSubsFrom [] h = s.onSnapshotUnsubscribeFn.toList)
    ∧ (∀ (T : Type) (s : CollState T) (h : List (CollEvent T)),
      ObservableCollection.CollReachable s h →
      ObservableCollection.collSubsFrom [] h = s.onSnapshotUnsubscribeFn.toList)
    ∧ (∀ (T : Type) (s : DocState T) (k : Nat),
      s.onSnapshotUnsubscribeFn = some k → s.sourcePath = s.listenerSourcePath →
      ObservableDocument.updateListeners s true = (s, []))
    ∧ (∀ (T : Type) (s : CollState T) (k : Nat),
      s.onSnapshotUnsubscribeFn = some k → s.sourcePath = s.listenerSourcePath →
      ObservableCollection.updateListeners s true = (s, []))
    ∧ (∀ (T : Type) (s : DocState T) (b : Bool),
      (ObservableDocument.updateListeners s b).2 = []
      ∨ (∃ k, (ObservableDocument.updateListeners s b).2 = [DocEvent.unsubscribe k])
      ∨ (∃ p k, (ObservableDocument.updateListeners s b).2 = [DocEvent.subscribe p k])
      ∨ (∃ k p k2, (ObservableDocument.updateListeners s b).2
          = [DocEvent.unsubscribe k, DocEvent.subscribe p k2]))
    ∧ (∀ (T : Type) (s : CollState T) (b : Bool),
      (ObservableCollection.updateListeners s b).2 = []
      ∨ (∃ k, (ObservableCollection.updateListeners s b).2 = [CollEvent.unsubscribe k])
      ∨ (∃ e, isCollSub e = true ∧ (ObservableCollection.updateListeners s b).2 = [e])
      ∨ (∃ k e, isCollSub e = true
          ∧ (ObservableCollection.updateListeners s b).2 = [CollEvent.unsubscribe k, e])) := by
  refine ⟨?_, ?_, ?_, ?_, ?_, ?_⟩
  · intro T s h hr
    exact ObservableDocument.docReachable_subs hr
  · intro T s h hr
    exact ObservableCollection.collReachable_subs hr
  · intro T s k hk hsp
    simp [ObservableDocument.updateListeners, hk, hsp]
  · intro T s k hk hsp
    simp [ObservableCollection.updateListeners, hk, hsp]
  · intro T s b
    unfold ObservableDocument.updateListeners
    cases hk : s.onSnapshotUnsubscribeFn with
    | none =>
      cases b with
      | false => exact Or.inl rfl
      | true =>
        cases hr : s.documentRef with
        | none => exact Or.inl rfl
        | some r => exact Or.inr (Or.inr (Or.inl ⟨r.path, s.nextSubId, rfl⟩))
    | some k =>
      cases b with
      | false => exact Or.inr (Or.inl ⟨k, rfl⟩)
      | true =>
        dsimp only
        by_cases hsp : s.sourcePath = s.listenerSourcePath
        · rw [if_pos hsp]
          exact Or.inl rfl
        · rw [if_neg hsp]
          cases hr : s.documentRef with
          | none => simp [hr]
          | some r =>
            simp only [hr]
            exact Or.inr (Or.inr (Or.inr ⟨k, r.path, s.nextSubId, rfl⟩))
  · intro T s b
    unfold ObservableCollection.updateListeners
    cases hk : s.onSnapshotUnsubscribeFn with
    | none =>
      cases b with
      | false => exact Or.inl rfl
      | true =>
        simp only [hk, Option.isSome_none, Bool.and_false, Bool.false_and,
          Bool.and_true, Bool.true_and, ite_false, Bool.false_eq_true]
        cases hq : s._query with
        | some q =>
          exact Or.inr (Or.inr (Or.inl ⟨CollEvent.subscribeQuery q s.nextSubId, rfl, rfl⟩))
        | none =>
          cases hc : s.collectionRef with
          | none => exact Or.inl rfl
          | some c =>
            exact Or.inr (Or.inr (Or.inl
              ⟨CollEvent.subscribeCollection c.path s.nextSubId, rfl, rfl⟩))
    | some k =>
      cases b with
      | false =>
        simp only [hk, Bool.and_false, Bool.false_and, ite_false, Bool.false_eq_true]
        exact Or.inr (Or.inl ⟨k, rfl⟩)
      | true =>
        by_cases hsp : (s.sourcePath == s.listenerSourcePath) = true
        · simp only [hk, Option.isSome_some, Bool.and_true, Bool.true_and, hsp, ite_true]
          exact Or.inl (by simp)
        · simp only [hk, Option.isSome_some, Bool.and_true, Bool.true_and, hsp,
            ite_false, Bool.false_eq_true]
          cases hq : s._query with
          | some q =>
            exact Or.inr (Or.inr (Or.inr
              ⟨k, CollEvent.subscribeQuery q s.nextSubId, rfl, rfl⟩))
          | none =>
            cases hc : s.collectionRef with
            | none => exact Or.inr (Or.inl ⟨k, rfl⟩)
            | some c =>
              exact Or.inr (Or.inr (Or.inr
                ⟨k, CollEvent.subscribeCollection c.path s.nextSubId, rfl, rfl⟩))

/-- **C6, witness.**  The reachability conjuncts applied to a concrete run: a
document observer constructed on a ref and then observed has store-side
active subscriptions exactly `[0]`, matching its handle; and the no-op
conjunct applied to the resulting state. -/
theorem C6_witness :
    ObservableDocument.docSubsFrom []
      ((ObservableDocument.construct (T := Nat) (some (Sum.inl ⟨"books", "b1"⟩))).2
        ++ (ObservableDocument.docStep
            (ObservableDocument.construct (T := Nat) (some (Sum.inl ⟨"books", "b1"⟩))).1
            DocOp.resume).2.1)
      = [0]
    ∧ ObservableDocument.updateListeners
        (ObservableDocument.docStep
          (ObservableDocument.construct (T := Nat) (some (Sum.inl ⟨"books", "b1"⟩))).1
          DocOp.resume).1 true
      = ((ObservableDocument.docStep
          (ObservableDocument.construct (T := Nat) (some (Sum.inl ⟨"books", "b1"⟩))).1
          DocOp.resume).1, []) := by
  constructor
  · exact (C6_theorem.1 Nat _ _
      (ObservableDocument.DocReachable.step DocOp.resume
        (ObservableDocument.DocReachable.init (some (Sum.inl ⟨"books", "b1"⟩)))
        trivial)).trans (by rfl)
  · exact C6_theorem.2.2.1 Nat _ 0 rfl rfl

/-! ## Ready-promise/resolver presence and assert-freedom (document observer) -/

namespace ObservableDocument

variable {T : Type}

theorem changeReady_ready (s : DocState T) (b : Bool)
    (h2 : s.readyPromise.isSome = true) :
    (changeReady s b).1.readyPromise.isSome = true := by
  cases b <;> simp [changeReady] <;> cases h : s.readyResolveFn <;> simp [h, h2]

theorem changeReady_ok (s : DocState T) (b : Bool)
    (h1 : s.readyResolveFn.isSome = true) :
    (changeReady s b).2.2 = Except.ok () := by
  cases b <;> simp [changeReady] <;> cases h : s.readyResolveFn <;> simp [h] <;>
    simp [h] at h1

theorem changeLoadingState_ready (s : DocState T) (b : Bool)
    (h2 : s.readyPromise.isSome = true) :
    (changeLoadingState s b).1.readyPromise.isSome = true := by
  have h := changeReady_ready s (!b) h2
  unfold changeLoadingState
  cases hr : changeReady s (!b) with
  | mk s1 rest =>
    rw [hr] at h
    cases rest with
    | mk ev r => cases r <;> simpa using h

theorem changeLoadingState_ok (s : DocState T) (b : Bool)
    (h1 : s.readyResolveFn.isSome = true) :
    (changeLoadingState s b).2.2 = Except.ok () := by
  have h := changeReady_ok s (!b) h1
  unfold changeLoadingState
  cases hr : changeReady s (!b) with
  | mk s1 rest =>
    rw [hr] at h
    cases rest with
    | mk ev r => cases r <;> simp_all

theorem applySourceBranch_ready (s : DocState T) (b : Bool)
    (h2 : s.readyPromise.isSome = true) :
    (applySourceBranch s b).1.readyPromise.isSome = true := by
  unfold applySourceBranch
  by_cases ho : s.observedCount > 0 <;> simp only [ho, ite_true, ite_false]
  · have hul := (updateListeners_proj s b).2.2.2.2.1
    have h := changeLoadingState_ready (updateListeners s b).1 b (by rw [hul]; exact h2)
    cases hc : changeLoadingState (updateListeners s b).1 b with
    | mk s4 rest =>
      rw [hc] at h
      cases rest with
      | mk ev r => exact h
  · have h := changeLoadingState_ready s b h2
    cases hc : changeLoadingState s b with
    | mk s4 rest =>
      rw [hc] at h
      cases rest with
      | mk ev r => exact h

theorem applySourceBranch_ok (s : DocState T) (b : Bool)
    (h1 : s.readyResolveFn.isSome = true) :
    (applySourceBranch s b).2.2 = Except.ok () := by
  unfold applySourceBranch
  by_cases ho : s.observedCount > 0 <;> simp only [ho, ite_true, ite_false]
  · have hul := (updateListeners_proj s b).2.2.2.2.2.1
    have h := changeLoadingState_ok (updateListeners s b).1 b (by rw [hul]; exact h1)
    cases hc : changeLoadingState (updateListeners s b).1 b with
    | mk s4 rest =>
      rw [hc] at h
      cases rest with
      | mk ev r => exact h
  · have h := changeLoadingState_ok s b h1
    cases hc : changeLoadingState s b with
    | mk s4 rest =>
      rw [hc] at h
      cases rest with
      | mk ev r => exact h

theorem applySourceBranch_resolveFn (s : DocState T) (b : Bool) :
    (applySourceBranch s b).1.readyResolveFn = s.readyResolveFn :=
  (applySourceBranch_proj s b).2.2.2.1

theorem handleSnapshot_ready (s : DocState T) (snap : Option T)
    (h2 : s.readyPromise.isSome = true) :
    (handleSnapshot s snap).1.readyPromise.isSome = true := by
  have h := changeLoadingState_ready { s with _data := snap } false h2
  unfold handleSnapshot
  cases hr : changeLoadingState { s with _data := snap } false with
  | mk s1 rest =>
    rw [hr] at h
    cases rest with
    | mk ev r => exact h

theorem handleSnapshot_resolveFn (s : DocState T) (snap : Option T) :
    (handleSnapshot s snap).1.readyResolveFn = s.readyResolveFn := by
  have h := (changeLoadingState_proj { s with _data := snap } false).2.2.2.1
  unfold handleSnapshot
  cases hr : changeLoadingState { s with _data := snap } false with
  | mk s1 rest =>
    rw [hr] at h
    cases rest with
    | mk ev r => exact h

theorem handleSnapshot_ok (s : DocState T) (snap : Option T)
    (h1 : s.readyResolveFn.isSome = true) :
    (handleSnapshot s snap).2.2 = Except.ok () := by
  have h := changeLoadingState_ok { s with _data := snap } false h1
  unfold handleSnapshot
  cases hr : changeLoadingState { s with _data := snap } false with
  | mk s1 rest =>
    rw [hr] at h
    cases rest with
    | mk ev r => exact h

theorem handleError_shape (s : DocState T) (msg : String) :
    (handleError s msg).2.2 = Except.ok ()
    ∨ ∃ m, (handleError s msg).2.2 = Except.error (Err.thrown m) := by
  by_cases h : s.hasErrorCallback <;> simp [handleError, h]

theorem fetchInitialData_fields (s : DocState T) :
    (fetchInitialData s).1.readyResolveFn = s.readyResolveFn
    ∧ (fetchInitialData s).1.readyPromise = s.readyPromise := by
  unfold fetchInitialData
  by_cases hf : s.firedInitialFetch <;> simp [hf]
  cases hr : s.documentRef <;> simp

end ObservableDocument

namespace ObservableDocument

variable {T : Type}

theorem changeSourceViaRef_inv (s : DocState T) (ref : Option DocRef)
    (h1 : s.readyResolveFn.isSome = true) (h2 : s.readyPromise.isSome = true) :
    ((changeSourceViaRef s ref).1.readyResolveFn.isSome = true
      ∧ (changeSourceViaRef s ref).1.readyPromise.isSome = true)
    ∧ ((changeSourceViaRef s ref).2.2 = Except.ok ()
      ∨ ∃ m, (changeSourceViaRef s ref).2.2 = Except.error (Err.thrown m)) := by
  unfold changeSourceViaRef
  by_cases hsp : samePath s.documentRef ref = true
  · rw [if_pos hsp]
    exact ⟨⟨h1, h2⟩, Or.inl rfl⟩
  · rw [if_neg hsp]
    dsimp only
    refine ⟨⟨?_, ?_⟩, Or.inl ?_⟩
    · rw [applySourceBranch_resolveFn]
      rfl
    · exact applySourceBranch_ready _ _ rfl
    · exact applySourceBranch_ok _ _ rfl

theorem changeSourceViaId_inv (s : DocState T) (i : Option String)
    (h1 : s.readyResolveFn.isSome = true) (h2 : s.readyPromise.isSome = true) :
    ((changeSourceViaId s i).1.readyResolveFn.isSome = true
      ∧ (changeSourceViaId s i).1.readyPromise.isSome = true)
    ∧ ((changeSourceViaId s i).2.2 = Except.ok ()
      ∨ ∃ m, (changeSourceViaId s i).2.2 = Except.error (Err.thrown m)) := by
  unfold changeSourceViaId
  by_cases hi : i = some (docId s)
  · rw [if_pos hi]
    exact ⟨⟨h1, h2⟩, Or.inl rfl⟩
  · rw [if_neg hi]
    by_cases he : (idTruthy i && s.collectionRef.isNone) = true
    · rw [if_pos he]
      refine ⟨?_, handleError_shape s _⟩
      rw [handleError_state]
      exact ⟨h1, h2⟩
    · rw [if_neg he]
      dsimp only
      refine ⟨⟨?_, ?_⟩, Or.inl ?_⟩
      · rw [applySourceBranch_resolveFn]
        rfl
      · exact applySourceBranch_ready _ _ rfl
      · exact applySourceBranch_ok _ _ rfl

theorem ready_inv (s : DocState T)
    (h1 : s.readyResolveFn.isSome = true) (h2 : s.readyPromise.isSome = true) :
    ((ready s).1.readyResolveFn.isSome = true
      ∧ (ready s).1.readyPromise.isSome = true)
    ∧ ∃ p, (ready s).2.2 = Except.ok p := by
  by_cases hl : s.onSnapshotUnsubscribeFn.isSome
  · cases hp : s.readyPromise with
    | none => rw [hp] at h2; simp at h2
    | some p => refine ⟨⟨?_, ?_⟩, p, ?_⟩ <;> simp [ready, hl, hp, h1]
  · by_cases hr : s.documentRef.isSome
    · have hf := fetchInitialData_fields s
      cases hfp : (fetchInitialData s).1.readyPromise with
      | none =>
        rw [hf.2] at hfp
        rw [hfp] at h2
        simp at h2
      | some p =>
        refine ⟨⟨?_, ?_⟩, p, ?_⟩ <;> simp [ready, hl, hr, hfp, hf.1, h1]
    · cases hp : s.readyPromise with
      | none => rw [hp] at h2; simp at h2
      | some p => refine ⟨⟨?_, ?_⟩, p, ?_⟩ <;> simp [ready, hl, hr, hp, h1]

theorem updateListeners_inv (s : DocState T) (b : Bool)
    (h1 : s.readyResolveFn.isSome = true) (h2 : s.readyPromise.isSome = true) :
    (updateListeners s b).1.readyResolveFn.isSome = true
    ∧ (updateListeners s b).1.readyPromise.isSome = true := by
  have ha := (updateListeners_proj s b).2.2.2.2.2.1
  have hb := (updateListeners_proj s b).2.2.2.2.1
  rw [ha, hb]
  exact ⟨h1, h2⟩

theorem resumeUpdates_inv (s : DocState T)
    (h1 : s.readyResolveFn.isSome = true) (h2 : s.readyPromise.isSome = true) :
    (resumeUpdates s).1.readyResolveFn.isSome = true
    ∧ (resumeUpdates s).1.readyPromise.isSome = true := by
  unfold resumeUpdates
  by_cases h : s.observedCount + 1 = 1 <;> simp only [h, ite_true, ite_false]
  · exact updateListeners_inv _ true h1 h2
  · exact ⟨h1, h2⟩

theorem suspendUpdates_inv (s : DocState T)
    (h1 : s.readyResolveFn.isSome = true) (h2 : s.readyPromise.isSome = true) :
    (suspendUpdates s).1.readyResolveFn.isSome = true
    ∧ (suspendUpdates s).1.readyPromise.isSome = true := by
  unfold suspendUpdates
  by_cases h : s.observedCount - 1 = 0 <;> simp only [h, ite_true, ite_false]
  · exact updateListeners_inv _ false h1 h2
  · exact ⟨h1, h2⟩

theorem docStep_inv (s : DocState T) (op : DocOp T)
    (h1 : s.readyResolveFn.isSome = true) (h2 : s.readyPromise.isSome = true) :
    ((docStep s op).1.readyResolveFn.isSome = true
      ∧ (docStep s op).1.readyPromise.isSome = true)
    ∧ ((docStep s op).2.2 = Except.ok ()
      ∨ ∃ m, (docStep s op).2.2 = Except.error (Err.thrown m)) := by
  cases op with
  | attach arg =>
    match arg with
    | none => exact changeSourceViaId_inv s none h1 h2
    | some (Sum.inl d) => exact changeSourceViaId_inv s (some d) h1 h2
    | some (Sum.inr r) => exact changeSourceViaRef_inv s (some r) h1 h2
  | readyOp =>
    have h := ready_inv s h1 h2
    dsimp only [docStep]
    cases hr : ready s with
    | mk s1 rest =>
      rw [hr] at h
      cases rest with
      | mk ev r =>
        obtain ⟨hs, p, hp⟩ := h
        simp only at hp
        refine ⟨hs, Or.inl ?_⟩
        simp [hp, Except.map]
  | resume =>
    have h := resumeUpdates_inv s h1 h2
    dsimp only [docStep]
    cases hr : resumeUpdates s with
    | mk s1 ev =>
      rw [hr] at h
      exact ⟨h, Or.inl rfl⟩
  | suspend =>
    have h := suspendUpdates_inv s h1 h2
    dsimp only [docStep]
    cases hr : suspendUpdates s with
    | mk s1 ev =>
      rw [hr] at h
      exact ⟨h, Or.inl rfl⟩
  | regOnError => exact ⟨⟨h1, h2⟩, Or.inl rfl⟩
  | regOnData => exact ⟨⟨h1, h2⟩, Or.inl rfl⟩
  | fetchOk fid snap =>
    dsimp only [docStep]
    unfold fetchResolve
    by_cases h : fid ∈ s.pendingFetches
    · rw [if_pos h]
      refine ⟨⟨?_, ?_⟩, Or.inl ?_⟩
      · rw [handleSnapshot_resolveFn]; exact h1
      · exact handleSnapshot_ready _ _ h2
      · exact handleSnapshot_ok _ _ h1
    · rw [if_neg h]
      exact ⟨⟨h1, h2⟩, Or.inl rfl⟩
  | fetchErr fid msg =>
    dsimp only [docStep]
    unfold fetchReject
    by_cases h : fid ∈ s.pendingFetches
    · rw [if_pos h]
      refine ⟨?_, handleError_shape _ _⟩
      rw [handleError_state]
      exact ⟨h1, h2⟩
    · rw [if_neg h]
      exact ⟨⟨h1, h2⟩, Or.inl rfl⟩
  | snapIn sub snap =>
    dsimp only [docStep]
    unfold listenSnap
    by_cases h : s.onSnapshotUnsubscribeFn = some sub
    · rw [if_pos h]
      refine ⟨⟨?_, ?_⟩, Or.inl ?_⟩
      · rw [handleSnapshot_resolveFn]; exact h1
      · exact handleSnapshot_ready _ _ h2
      · exact handleSnapshot_ok _ _ h1
    · rw [if_neg h]
      exact ⟨⟨h1, h2⟩, Or.inl rfl⟩
  | errIn sub msg =>
    dsimp only [docStep]
    unfold listenError
    by_cases h : s.onSnapshotUnsubscribeFn = some sub
    · rw [if_pos h]
      refine ⟨?_, handleError_shape _ _⟩
      rw [handleError_state]
      exact ⟨h1, h2⟩
    · rw [if_neg h]
      exact ⟨⟨h1, h2⟩, Or.inl rfl⟩

theorem docReachable_inv {s : DocState T} {h : List (DocEvent T)}
    (hr : DocReachable s h) :
    s.readyResolveFn.isSome = true ∧ s.readyPromise.isSome = true := by
  induction hr with
  | init source =>
    match source with
    | none => exact ⟨rfl, rfl⟩
    | some (Sum.inr c) => exact ⟨rfl, rfl⟩
    | some (Sum.inl r) => exact ⟨rfl, rfl⟩
  | step op _ _ ih => exact (docStep_inv _ op ih.1 ih.2).1

end ObservableDocument

/-! ## Ready-promise/resolver presence and assert-freedom (collection observer) -/

namespace ObservableCollection

variable {T : Type}

theorem collUpdateListeners_proj (s : CollState T) (b : Bool) :
    (updateListeners s b).1.readyPromise = s.readyPromise
    ∧ (updateListeners s b).1.readyResolveFn = s.readyResolveFn := by
  unfold updateListeners
  cases hh : s.onSnapshotUnsubscribeFn with
  | none =>
    cases b with
    | false => simp [hh]
    | true =>
      cases hq : s._query <;> cases hc : s.collectionRef <;> simp [hh, hq, hc]
  | some k =>
    cases b with
    | false => simp [hh]
    | true =>
      by_cases hsp : (s.sourcePath == s.listenerSourcePath) = true
      · simp [hh, hsp]
      · cases hq : s._query <;> cases hc : s.collectionRef <;> simp [hh, hsp, hq, hc]

theorem collChangeReady_ready (s : CollState T) (b : Bool)
    (h2 : s.readyPromise.isSome = true) :
    (changeReady s b).1.readyPromise.isSome = true := by
  cases b <;> simp [changeReady] <;> cases h : s.readyResolveFn <;> simp [h, h2]

theorem collChangeReady_ok (s : CollState T) (b : Bool)
    (h1 : s.readyResolveFn.isSome = true) :
    (changeReady s b).2.2 = Except.ok () := by
  cases b <;> simp [changeReady] <;> cases h : s.readyResolveFn <;> simp [h] <;>
    simp [h] at h1

theorem collChangeLoadingState_ready (s : CollState T) (b : Bool)
    (h2 : s.readyPromise.isSome = true) :
    (changeLoadingState s b).1.readyPromise.isSome = true := by
  have h := collChangeReady_ready s (!b) h2
  unfold changeLoadingState
  cases hr : changeReady s (!b) with
  | mk s1 rest =>
    rw [hr] at h
    cases rest with
    | mk ev r => cases r <;> simpa using h

theorem collChangeLoadingState_ok (s : CollState T) (b : Bool)
    (h1 : s.readyResolveFn.isSome = true) :
    (changeLoadingState s b).2.2 = Except.ok () := by
  have h := collChangeReady_ok s (!b) h1
  unfold changeLoadingState
  cases hr : changeReady s (!b) with
  | mk s1 rest =>
    rw [hr] at h
    cases rest with
    | mk ev r => cases r <;> simp_all

theorem collHandleError_shape (s : CollState T) (msg : String) :
    (handleError s msg).2.2 = Except.ok ()
    ∨ ∃ m, (handleError s msg).2.2 = Except.error (Err.thrown m) := by
  by_cases h : s.hasErrorCallback <;> simp [handleError, h]

theorem applyLoadBranch_inv (s : CollState T)
    (h1 : s.readyResolveFn.isSome = true) (h2 : s.readyPromise.isSome = true) :
    ((applyLoadBranch s).1.readyResolveFn.isSome = true
      ∧ (applyLoadBranch s).1.readyPromise.isSome = true)
    ∧ (applyLoadBranch s).2.2 = Except.ok () := by
  unfold applyLoadBranch
  by_cases ho : s.observedCount > 0 <;> simp only [ho, ite_true, ite_false]
  · have hu := collUpdateListeners_proj s true
    have ha := collChangeLoadingState_ready (updateListeners s true).1 true
      (by rw [hu.1]; exact h2)
    have hb := collChangeLoadingState_ok (updateListeners s true).1 true
      (by rw [hu.2]; exact h1)
    have hc2 := (collChangeLoadingState_proj (updateListeners s true).1 true).2.2.2.1
    cases hc : changeLoadingState (updateListeners s true).1 true with
    | mk s4 rest =>
      rw [hc] at ha hb hc2
      cases rest with
      | mk ev r =>
        refine ⟨⟨?_, ha⟩, hb⟩
        simp only at hc2
        rw [hc2, hu.2]
        exact h1
  · have ha := collChangeLoadingState_ready s true h2
    have hb := collChangeLoadingState_ok s true h1
    have hc2 := (collChangeLoadingState_proj s true).2.2.2.1
    cases hc : changeLoadingState s true with
    | mk s4 rest =>
      rw [hc] at ha hb hc2
      cases rest with
      | mk ev r =>
        refine ⟨⟨?_, ha⟩, hb⟩
        simp only at hc2
        rw [hc2]
        exact h1

theorem applyClearBranch_inv (s : CollState T)
    (h1 : s.readyResolveFn.isSome = true) (h2 : s.readyPromise.isSome = true) :
    ((applyClearBranch s).1.readyResolveFn.isSome = true
      ∧ (applyClearBranch s).1.readyPromise.isSome = true)
    ∧ (applyClearBranch s).2.2 = Except.ok () := by
  unfold applyClearBranch
  by_cases ho : s.observedCount > 0 <;> simp only [ho, ite_true, ite_false]
  · have hu := collUpdateListeners_proj s false
    have ha := collChangeLoadingState_ready { (updateListeners s false).1 with docs := [] } false
      (by show (updateListeners s false).1.readyPromise.isSome = true; rw [hu.1]; exact h2)
    have hb := collChangeLoadingState_ok { (updateListeners s false).1 with docs := [] } false
      (by show (updateListeners s false).1.readyResolveFn.isSome = true; rw [hu.2]; exact h1)
    have hc2 := (collChangeLoadingState_proj
      { (updateListeners s false).1 with docs := [] } false).2.2.2.1
    cases hc : changeLoadingState { (updateListeners s false).1 with docs := [] } false with
    | mk s4 rest =>
      rw [hc] at ha hb hc2
      cases rest with
      | mk ev r =>
        refine ⟨⟨?_, ha⟩, hb⟩
        simp only at hc2
        rw [hc2]
        show (updateListeners s false).1.readyResolveFn.isSome = true
        rw [hu.2]
        exact h1
  · have ha := collChangeLoadingState_ready { s with docs := [] } false h2
    have hb := collChangeLoadingState_ok { s with docs := [] } false h1
    have hc2 := (collChangeLoadingState_proj { s with docs := [] } false).2.2.2.1
    cases hc : changeLoadingState { s with docs := [] } false with
    | mk s4 rest =>
      rw [hc] at ha hb hc2
      cases rest with
      | mk ev r =>
        refine ⟨⟨?_, ha⟩, hb⟩
        simp only at hc2
        rw [hc2]
        exact h1

theorem changeSource_inv (s : CollState T) (newRef : Option CollRef)
    (h1 : s.readyResolveFn.isSome = true) (h2 : s.readyPromise.isSome = true) :
    ((changeSource s newRef).1.readyResolveFn.isSome = true
      ∧ (changeSource s newRef).1.readyPromise.isSome = true)
    ∧ ((changeSource s newRef).2.2 = Except.ok ()
      ∨ ∃ m, (changeSource s newRef).2.2 = Except.error (Err.thrown m)) := by
  unfold changeSource
  cases hco : s.collectionRef with
  | none =>
    cases hcn : newRef with
    | none => exact ⟨⟨h1, h2⟩, Or.inl rfl⟩
    | some n =>
      dsimp only
      cases hq : s.queryCreatorFn <;>
        exact ⟨(applyLoadBranch_inv _ (by rfl) (by rfl)).1,
          Or.inl (applyLoadBranch_inv _ (by rfl) (by rfl)).2⟩
  | some c =>
    cases hcn : newRef with
    | none =>
      dsimp only
      exact ⟨(applyClearBranch_inv _ (by rfl) (by rfl)).1,
        Or.inl (applyClearBranch_inv _ (by rfl) (by rfl)).2⟩
    | some n =>
      by_cases hp : (c.path == n.path) = true
      · simp only [hp, ite_true]
        exact ⟨⟨h1, h2⟩, Or.inl (by simp)⟩
      · simp only [hp, ite_false, Bool.false_eq_true]
        try dsimp only
        cases hq : s.queryCreatorFn <;>
          exact ⟨(applyLoadBranch_inv _ (by rfl) (by rfl)).1,
            Or.inl (applyLoadBranch_inv _ (by rfl) (by rfl)).2⟩

theorem setQuery_inv (s : CollState T) (qfn : Option (CollRef → Query))
    (h1 : s.readyResolveFn.isSome = true) (h2 : s.readyPromise.isSome = true) :
    ((setQuery s qfn).1.readyResolveFn.isSome = true
      ∧ (setQuery s qfn).1.readyPromise.isSome = true)
    ∧ ((setQuery s qfn).2.2 = Except.ok ()
      ∨ ∃ m, (setQuery s qfn).2.2 = Except.error (Err.thrown m)) := by
  unfold setQuery
  dsimp only
  split
  · exact ⟨⟨h1, h2⟩, Or.inl rfl⟩
  · split
    · exact ⟨⟨h1, h2⟩, Or.inl rfl⟩
    · split
      · exact ⟨(applyLoadBranch_inv _ (by exact h1) (by exact h2)).1,
          Or.inl (applyLoadBranch_inv _ (by exact h1) (by exact h2)).2⟩
      · exact ⟨(applyClearBranch_inv _ (by exact h1) (by exact h2)).1,
          Or.inl (applyClearBranch_inv _ (by exact h1) (by exact h2)).2⟩

end ObservableCollection

namespace ObservableCollection

variable {T : Type}

theorem collHandleSnapshot_ready (s : CollState T) (rows : List (CollDoc T))
    (h2 : s.readyPromise.isSome = true) :
    (handleSnapshot s rows).1.readyPromise.isSome = true :=
  collChangeLoadingState_ready { s with docs := rows } false h2

theorem collHandleSnapshot_resolveFn (s : CollState T) (rows : List (CollDoc T)) :
    (handleSnapshot s rows).1.readyResolveFn = s.readyResolveFn :=
  (collChangeLoadingState_proj { s with docs := rows } false).2.2.2.1

theorem collHandleSnapshot_ok (s : CollState T) (rows : List (CollDoc T))
    (h1 : s.readyResolveFn.isSome = true) :
    (handleSnapshot s rows).2.2 = Except.ok () :=
  collChangeLoadingState_ok { s with docs := rows } false h1

theorem collFetchInitialData_fields (s : CollState T) :
    (fetchInitialData s).1.readyResolveFn = s.readyResolveFn
    ∧ (fetchInitialData s).1.readyPromise = s.readyPromise := by
  unfold fetchInitialData
  by_cases hf : s.firedInitialFetch = true
  · rw [if_pos hf]
    exact ⟨rfl, rfl⟩
  · rw [if_neg hf]
    cases hc : s.collectionRef with
    | none =>
      simp only [hc]
      rw [collHandleError_state]
      exact ⟨by first | rfl | trivial, by first | rfl | trivial⟩
    | some c =>
      simp only [hc]
      exact ⟨by first | rfl | trivial, by first | rfl | trivial⟩

theorem fetchInitialData_shape (s : CollState T) :
    (fetchInitialData s).2.2 = Except.ok ()
    ∨ ∃ m, (fetchInitialData s).2.2 = Except.error (Err.thrown m) := by
  unfold fetchInitialData
  by_cases hf : s.firedInitialFetch = true
  · rw [if_pos hf]
    exact Or.inl rfl
  · rw [if_neg hf]
    cases hc : s.collectionRef with
    | none =>
      simp only [hc]
      exact collHandleError_shape s _
    | some c =>
      simp only [hc]
      exact Or.inl (by first | rfl | trivial)

theorem collReady_inv (s : CollState T)
    (h1 : s.readyResolveFn.isSome = true) (h2 : s.readyPromise.isSome = true) :
    ((ready s).1.readyResolveFn.isSome = true
      ∧ (ready s).1.readyPromise.isSome = true)
    ∧ ((∃ p, (ready s).2.2 = Except.ok p)
      ∨ ∃ m, (ready s).2.2 = Except.error (Err.thrown m)) := by
  by_cases hl : s.onSnapshotUnsubscribeFn.isSome
  · cases hp : s.readyPromise with
    | none => rw [hp] at h2; simp at h2
    | some p =>
      refine ⟨⟨?_, ?_⟩, Or.inl ⟨p, ?_⟩⟩ <;> simp [ready, hl, hp, h1]
  · have hff := collFetchInitialData_fields s
    have hsh := fetchInitialData_shape s
    unfold ready
    simp only [hl, ite_false, Bool.false_eq_true]
    cases hr : fetchInitialData s with
    | mk s1 rest =>
      rw [hr] at hff hsh
      cases rest with
      | mk ev r =>
        simp only at hff hsh
        cases r with
        | error e =>
          rcases hsh with hok | ⟨m, hm⟩
          · exact absurd hok (by simp)
          · refine ⟨⟨?_, ?_⟩, Or.inr ⟨m, ?_⟩⟩
            · rw [hff.1]; exact h1
            · rw [hff.2]; exact h2
            · simpa using hm
        | ok u =>
          cases hp : s1.readyPromise with
          | none =>
            rw [hff.2] at hp
            rw [hp] at h2
            simp at h2
          | some p =>
            refine ⟨⟨?_, ?_⟩, Or.inl ⟨p, ?_⟩⟩ <;> simp [hp, hff.1, hff.2, h1]

theorem add_inv (s : CollState T) (d : T)
    (h1 : s.readyResolveFn.isSome = true) (h2 : s.readyPromise.isSome = true) :
    ((add s d).1.readyResolveFn.isSome = true
      ∧ (add s d).1.readyPromise.isSome = true)
    ∧ ((add s d).2.2 = Except.ok ()
      ∨ ∃ m, (add s d).2.2 = Except.error (Err.thrown m)) := by
  unfold add
  cases hc : s.collectionRef with
  | none =>
    have hs := collHandleError_state s "Can not add a document to a collection that has no ref"
    cases hr : handleError s "Can not add a document to a collection that has no ref" with
    | mk s1 rest =>
      rw [hr] at hs
      cases rest with
      | mk ev r =>
        simp only at hs
        cases r with
        | error e =>
          refine ⟨?_, ?_⟩
          · rw [hs]; exact ⟨h1, h2⟩
          · have hsh := collHandleError_shape s
              "Can not add a document to a collection that has no ref"
            rw [hr] at hsh
            rcases hsh with hok | ⟨m, hm⟩
            · exact absurd hok (by simp)
            · exact Or.inr ⟨m, by simp only at hm ⊢; simp [hm]⟩
        | ok u =>
          exact ⟨(by rw [hs]; exact ⟨h1, h2⟩), Or.inr ⟨_, rfl⟩⟩
  | some c => exact ⟨⟨h1, h2⟩, Or.inl rfl⟩

theorem collUpdateListeners_inv (s : CollState T) (b : Bool)
    (h1 : s.readyResolveFn.isSome = true) (h2 : s.readyPromise.isSome = true) :
    (updateListeners s b).1.readyResolveFn.isSome = true
    ∧ (updateListeners s b).1.readyPromise.isSome = true := by
  have h := collUpdateListeners_proj s b
  rw [h.1, h.2]
  exact ⟨h1, h2⟩

theorem collResumeUpdates_inv (s : CollState T)
    (h1 : s.readyResolveFn.isSome = true) (h2 : s.readyPromise.isSome = true) :
    (resumeUpdates s).1.readyResolveFn.isSome = true
    ∧ (resumeUpdates s).1.readyPromise.isSome = true := by
  unfold resumeUpdates
  by_cases h : s.observedCount + 1 = 1 <;> simp only [h, ite_true, ite_false]
  · exact collUpdateListeners_inv _ true h1 h2
  · exact ⟨h1, h2⟩

theorem collSuspendUpdates_inv (s : CollState T)
    (h1 : s.readyResolveFn.isSome = true) (h2 : s.readyPromise.isSome = true) :
    (suspendUpdates s).1.readyResolveFn.isSome = true
    ∧ (suspendUpdates s).1.readyPromise.isSome = true := by
  unfold suspendUpdates
  by_cases h : s.observedCount - 1 = 0 <;> simp only [h, ite_true, ite_false]
  · exact collUpdateListeners_inv _ false h1 h2
  · exact ⟨h1, h2⟩

theorem collStep_inv (s : CollState T) (op : CollOp T)
    (h1 : s.readyResolveFn.isSome = true) (h2 : s.readyPromise.isSome = true) :
    ((collStep s op).1.readyResolveFn.isSome = true
      ∧ (collStep s op).1.readyPromise.isSome = true)
    ∧ ((collStep s op).2.2 = Except.ok ()
      ∨ ∃ m, (collStep s op).2.2 = Except.error (Err.thrown m)) := by
  cases op with
  | attach newRef => exact changeSource_inv s newRef h1 h2
  | setQueryOp qfn => exact setQuery_inv s qfn h1 h2
  | readyOp =>
    have h := collReady_inv s h1 h2
    dsimp only [collStep]
    cases hr : ready s with
    | mk s1 rest =>
      rw [hr] at h
      cases rest with
      | mk ev r =>
        obtain ⟨hs, hres⟩ := h
        refine ⟨hs, ?_⟩
        rcases hres with ⟨p, hp⟩ | ⟨m, hm⟩
        · simp only at hp
          exact Or.inl (by simp [hp, Except.map])
        · simp only at hm
          exact Or.inr ⟨m, by simp [hm, Except.map]⟩
  | addOp d => exact add_inv s d h1 h2
  | resume =>
    have h := collResumeUpdates_inv s h1 h2
    dsimp only [collStep]
    cases hr : resumeUpdates s with
    | mk s1 ev =>
      rw [hr] at h
      exact ⟨h, Or.inl rfl⟩
  | suspend =>
    have h := collSuspendUpdates_inv s h1 h2
    dsimp only [collStep]
    cases hr : suspendUpdates s with
    | mk s1 ev =>
      rw [hr] at h
      exact ⟨h, Or.inl rfl⟩
  | regOnError => exact ⟨⟨h1, h2⟩, Or.inl rfl⟩
  | fetchOk fid rows =>
    dsimp only [collStep]
    unfold fetchResolve
    by_cases h : fid ∈ s.pendingFetches
    · rw [if_pos h]
      refine ⟨⟨?_, ?_⟩, Or.inl ?_⟩
      · rw [collHandleSnapshot_resolveFn]; exact h1
      · exact collHandleSnapshot_ready _ _ h2
      · exact collHandleSnapshot_ok _ _ h1
    · rw [if_neg h]
      exact ⟨⟨h1, h2⟩, Or.inl rfl⟩
  | fetchErr fid msg =>
    dsimp only [collStep]
    unfold fetchReject
    by_cases h : fid ∈ s.pendingFetches
    · rw [if_pos h]
      refine ⟨?_, collHandleError_shape _ _⟩
      rw [collHandleError_state]
      exact ⟨h1, h2⟩
    · rw [if_neg h]
      exact ⟨⟨h1, h2⟩, Or.inl rfl⟩
  | snapIn sub rows =>
    dsimp only [collStep]
    unfold listenSnap
    by_cases h : s.onSnapshotUnsubscribeFn = some sub
    · rw [if_pos h]
      by_cases hk : s.subSkip > 0
      · rw [if_pos hk]
        exact ⟨⟨h1, h2⟩, Or.inl rfl⟩
      · rw [if_neg hk]
        refine ⟨⟨?_, ?_⟩, Or.inl ?_⟩
        · rw [collHandleSnapshot_resolveFn]; exact h1
        · exact collHandleSnapshot_ready _ _ h2
        · exact collHandleSnapshot_ok _ _ h1
    · rw [if_neg h]
      exact ⟨⟨h1, h2⟩, Or.inl rfl⟩
  | errIn sub msg =>
    dsimp only [collStep]
    unfold listenError
    by_cases h : s.onSnapshotUnsubscribeFn = some sub
    · rw [if_pos h]
      refine ⟨?_, collHandleError_shape _ _⟩
      rw [collHandleError_state]
      exact ⟨h1, h2⟩
    · rw [if_neg h]
      exact ⟨⟨h1, h2⟩, Or.inl rfl⟩

theorem collReachable_inv {s : CollState T} {h : List (CollEvent T)}
    (hr : CollReachable s h) :
    s.readyResolveFn.isSome = true ∧ s.readyPromise.isSome = true := by
  induction hr with
  | init ref qfn ig =>
    match ref, qfn with
    | none, none => exact ⟨rfl, rfl⟩
    | none, some f => exact ⟨rfl, rfl⟩
    | some c, none => exact ⟨rfl, rfl⟩
    | some c, some f => exact ⟨rfl, rfl⟩
  | step op _ _ ih => exact (collStep_inv _ op ih.1 ih.2).1

end ObservableCollection

/-- **C10.**  The internal assertions "Missing ready promise" and "Missing
ready resolve function" never fire.  In every reachable state of either
observer a ready promise and its resolver are installed (the constructor
installs them before anything else and every source change reinstalls them),
and consequently no public or asynchronous operation from a reachable state
can ever return the assertion failure: every operation either completes or
throws a routed consumer error. -/
theorem C10_theorem :
    (∀ (T : Type) (s : DocState T) (h : List (DocEvent T)),
      ObservableDocument.DocReachable s h →
      s.readyResolveFn.isSome = true ∧ s.readyPromise.isSome = true)
    ∧ (∀ (T : Type) (s : CollState T) (h : List (CollEvent T)),
      ObservableCollection.CollReachable s h →
      s.readyResolveFn.isSome = true ∧ s.readyPromise.isSome = true)
    ∧ (∀ (T : Type) (s : DocState T) (h : List (DocEvent T)) (op : DocOp T),
      ObservableDocument.DocReachable s h →
      ∀ m, (ObservableDocument.docStep s op).2.2 ≠ Except.error (Err.assertFail m))
    ∧ (∀ (T : Type) (s : CollState T) (h : List (CollEvent T)) (op : CollOp T),
      ObservableCollection.CollReachable s h →
      ∀ m, (ObservableCollection.collStep s op).2.2 ≠ Except.error (Err.assertFail m)) := by
  refine ⟨?_, ?_, ?_, ?_⟩
  · intro T s h hr
    exact ObservableDocument.docReachable_inv hr
  · intro T s h hr
    exact ObservableCollection.collReachable_inv hr
  · intro T s h op hr m hcontra
    have hinv := ObservableDocument.docReachable_inv hr
    rcases (ObservableDocument.docStep_inv s op hinv.1 hinv.2).2 with hok | ⟨m2, hm⟩
    · rw [hok] at hcontra
      exact Except.noConfusion hcontra
    · rw [hm] at hcontra
      have := Except.error.inj hcontra
      exact Err.noConfusion this
  · intro T s h op hr m hcontra
    have hinv := ObservableCollection.collReachable_inv hr
    rcases (ObservableCollection.collStep_inv s op hinv.1 hinv.2).2 with hok | ⟨m2, hm⟩
    · rw [hok] at hcontra
      exact Except.noConfusion hcontra
    · rw [hm] at hcontra
      have := Except.error.inj hcontra
      exact Err.noConfusion this

/-- **C10, witness.**  The invariant and assert-freedom applied to a freshly
constructed no-source document observer and its first `ready()` call, and to
a collection observer constructed on a bare reference. -/
theorem C10_witness :
    ((ObservableDocument.construct (T := Nat) none).1.readyResolveFn.isSome = true
      ∧ (ObservableDocument.construct (T := Nat) none).1.readyPromise.isSome = true)
    ∧ ((ObservableCollection.construct (T := Nat) (some ⟨"books"⟩) none false).1.readyResolveFn.isSome = true
      ∧ (ObservableCollection.construct (T := Nat) (some ⟨"books"⟩) none false).1.readyPromise.isSome = true)
    ∧ (ObservableDocument.docStep (ObservableDocument.construct (T := Nat) none).1
        DocOp.readyOp).2.2 ≠ Except.error (Err.assertFail "Missing ready promise") := by
  refine ⟨?_, ?_, ?_⟩
  · exact C10_theorem.1 Nat _ _ (ObservableDocument.DocReachable.init none)
  · exact C10_theorem.2.1 Nat _ _
      (ObservableCollection.CollReachable.init (some ⟨"books"⟩) none false)
  · exact C10_theorem.2.2.1 Nat _ _ DocOp.readyOp
      (ObservableDocument.DocReachable.init none) "Missing ready promise"
